import Mathlib

/-!
Hardware composer (libhwcomposer): layer statistics, prepare/set dispatch, fence sync.

A shallow embedding of `src/libhwcomposer/hwc_utils.cpp` (`getLayerStats`, `hwc_sync`) and
`src/libhwcomposer/hwc.cpp` (`reset`, `hwc_prepare*`, `hwc_set*`, `hwc_getDisplayAttributes`).

Conventions
* a C `int` is an `Int` kept in range by `int32` wherever the code does arithmetic or a
  conversion on it;
* a pointer that may be `NULL` is an `Option`;
* an array handed in by the caller is a `List`, its element count is the list's length;
* functions of the repository that the two files call but do not define (the selectors,
  the framebuffer and overlay devices, the handle predicates of `hwc_utils.h`) are
  parameters: the theorems hold for every choice of them.
-/

namespace qhwc

/-! ## Machine integers and constants -/

/-- The value of a 32-bit two's-complement `int` holding the mathematical integer `x`. -/
def int32 (x : Int) : Int := (x + 2147483648) % 4294967296 - 2147483648

/-- `EINVAL` of `errno.h`. -/
def EINVAL : Int := 22

/-- Composition types of `hardware/hwcomposer_defs.h`. -/
def HWC_FRAMEBUFFER : Int := 0
/-- Composition type of a layer claimed by an overlay. -/
def HWC_OVERLAY : Int := 1
/-- Composition type of the background layer. -/
def HWC_BACKGROUND : Int := 2
/-- Composition type of the framebuffer-target layer. -/
def HWC_FRAMEBUFFER_TARGET : Int := 3

/-- Display index of the primary display. -/
def HWC_DISPLAY_PRIMARY : Nat := 0
/-- Display index of the external display. -/
def HWC_DISPLAY_EXTERNAL : Nat := 1

/-! ## Layers -/

/-- The fields of `hwc_layer_1_t` the two source files touch. `handle` is the buffer
handle (`none` is `NULL`, `some h` identifies the buffer). -/
structure hwc_layer_1_t where
  compositionType : Int
  flags : Nat
  handle : Option Nat
  acquireFenceFd : Int
  releaseFenceFd : Int
deriving DecidableEq, Repr

/-- The inline predicates of `hwc_utils.h` that `getLayerStats` calls. The header is not
part of the two source files, so they are parameters. The five handle predicates accept
a `NULL` handle, as the calls in `getLayerStats` pass the handle unchecked. -/
structure BufferPreds where
  isYuvBuffer : Option Nat → Bool
  isSecureBuffer : Option Nat → Bool
  isExtCC : Option Nat → Bool
  isExtBlock : Option Nat → Bool
  isExtOnly : Option Nat → Bool
  isSkipLayer : hwc_layer_1_t → Bool

/-! ## `getLayerStats` (hwc_utils.cpp 104-154) -/

/-- The local variables of `getLayerStats`, which are exactly what it hands to the
`setStats` functions of the selectors after the loop. -/
structure LayerStats where
  yuvCount : Int
  yuvLayerIndex : Int
  isYuvLayerSkip : Bool
  skipCount : Int
  ccLayerIndex : Int
  extLayerIndex : Int
  extCount : Int
  isExtBlockPresent : Bool
  yuvSecure : Bool
deriving DecidableEq, Repr

/-- The initialisers of the locals (lines 107-115). -/
def initStats : LayerStats :=
  { yuvCount := 0, yuvLayerIndex := -1, isYuvLayerSkip := false, skipCount := 0,
    ccLayerIndex := -1, extLayerIndex := -1, extCount := 0, isExtBlockPresent := false,
    yuvSecure := false }

/-- One iteration of the loop of `getLayerStats` (lines 118-143) at index `i`. -/
def statsStep (p : BufferPreds) (s : LayerStats) (i : Nat) (l : hwc_layer_1_t) :
    LayerStats :=
  let hnd := l.handle
  if p.isYuvBuffer hnd then
    let s1 := { s with yuvCount := int32 (s.yuvCount + 1), yuvLayerIndex := int32 i,
                       yuvSecure := p.isSecureBuffer hnd }
    if p.isSkipLayer l && !s1.yuvSecure then
      { s1 with isYuvLayerSkip := true, skipCount := int32 (s1.skipCount + 1) }
    else s1
  else if p.isExtCC hnd then
    { s with ccLayerIndex := int32 i }
  else if p.isExtBlock hnd then
    { s with extCount := int32 (s.extCount + 1), extLayerIndex := int32 i,
             isExtBlockPresent := true }
  else if p.isExtOnly hnd then
    let s1 := { s with extCount := int32 (s.extCount + 1) }
    if s1.isExtBlockPresent == false then { s1 with extLayerIndex := int32 i } else s1
  else if p.isSkipLayer l then
    { s with skipCount := int32 (s.skipCount + 1) }
  else s

/-- The loop of `getLayerStats` from index `i` on, over the layers not yet visited. -/
def statsLoop (p : BufferPreds) (s : LayerStats) (i : Nat) :
    List hwc_layer_1_t → LayerStats
  | [] => s
  | l :: ls => statsLoop p (statsStep p s i l) (i + 1) ls

/-- The statistics `getLayerStats` computes for a layer list: the values of its locals
when the loop ends, passed on to `VideoOverlay::setStats`, `ExtOnly::setStats`,
`CopyBit::setStats` and `MDPComp::setStats`. -/
def getLayerStats (p : BufferPreds) (list : List hwc_layer_1_t) : LayerStats :=
  statsLoop p initStats 0 list

/-! ### The classes of the if / else-if chain, in the words of the specification -/

/-- A layer whose buffer is YUV, that carries the skip flag and is not secure. -/
def isUnsecureSkipYuv (p : BufferPreds) (l : hwc_layer_1_t) : Bool :=
  p.isYuvBuffer l.handle && p.isSkipLayer l && !p.isSecureBuffer l.handle

/-- A layer classified as closed caption: not video, closed-caption buffer. -/
def isClassCC (p : BufferPreds) (l : hwc_layer_1_t) : Bool :=
  !p.isYuvBuffer l.handle && p.isExtCC l.handle

/-- A layer classified as external-BLOCK: not video, not closed caption, BLOCK buffer. -/
def isClassExtBlock (p : BufferPreds) (l : hwc_layer_1_t) : Bool :=
  !p.isYuvBuffer l.handle && !p.isExtCC l.handle && p.isExtBlock l.handle

/-- A layer classified as plain external-only: none of the above, external-only buffer. -/
def isClassExtOnly (p : BufferPreds) (l : hwc_layer_1_t) : Bool :=
  !p.isYuvBuffer l.handle && !p.isExtCC l.handle && !p.isExtBlock l.handle
    && p.isExtOnly l.handle

/-- A layer classified as plain skip: none of the above, skip flag set. -/
def isClassSkip (p : BufferPreds) (l : hwc_layer_1_t) : Bool :=
  !p.isYuvBuffer l.handle && !p.isExtCC l.handle && !p.isExtBlock l.handle
    && !p.isExtOnly l.handle && p.isSkipLayer l

/-- The index of the last element of a list that satisfies `q`, if there is one. -/
def lastIndexWhere {α : Type} (q : α → Bool) : List α → Option Nat
  | [] => none
  | x :: xs =>
    match lastIndexWhere q xs with
    | some j => some (j + 1)
    | none => if q x then some 0 else none

/-- The `extLayerIndex` the specification describes: the last external-BLOCK layer if
there is one, otherwise the last plain external-only layer, otherwise -1. -/
def specExtLayerIndex (p : BufferPreds) (list : List hwc_layer_1_t) : Int :=
  match lastIndexWhere (isClassExtBlock p) list with
  | some i => int32 i
  | none =>
    match lastIndexWhere (isClassExtOnly p) list with
    | some i => int32 i
    | none => -1

/-- A concrete reading of the predicates, used to evaluate examples: the handle number
carries one bit per predicate (1 video, 2 secure, 4 closed caption, 8 BLOCK,
16 external-only) and bit 0 of the layer flags is the skip flag. -/
def samplePreds : BufferPreds :=
  { isYuvBuffer := fun h => match h with | some n => n % 2 == 1 | none => false
    isSecureBuffer := fun h => match h with | some n => n / 2 % 2 == 1 | none => false
    isExtCC := fun h => match h with | some n => n / 4 % 2 == 1 | none => false
    isExtBlock := fun h => match h with | some n => n / 8 % 2 == 1 | none => false
    isExtOnly := fun h => match h with | some n => n / 16 % 2 == 1 | none => false
    isSkipLayer := fun l => l.flags % 2 == 1 }

/-- A layer with the given handle and flags, composition type `HWC_FRAMEBUFFER` and no
fences. -/
def mkLayer (handle : Option Nat) (flags : Nat) : hwc_layer_1_t :=
  { compositionType := HWC_FRAMEBUFFER, flags := flags, handle := handle,
    acquireFenceFd := -1, releaseFenceFd := -1 }

/-! ## The device context and the functions defined outside the two files -/

/-- An element of `ctx->listStats`. Its declaration (`hwc_utils.h`) is not part of the
two source files: `yuvIndex` is the one field they name, `rest` stands for the bytes of
all other fields read as one number (0 when every byte is 0). -/
structure ListStats where
  yuvIndex : Int
  rest : Nat
deriving DecidableEq, Repr

/-- An element of `ctx->dpyAttr`: the fields read or written by `hwc.cpp`. The resolution
and period are kept as integers, the densities (C `float`) as the rational they hold. -/
structure DisplayAttributes where
  vsync_period : Int
  xres : Int
  yres : Int
  xdpi : Rat
  ydpi : Rat
  isActive : Bool

/-- The fields of `hwc_context_t` used by `hwc.cpp`. The arrays `listStats` and `dpyAttr`
are indexed by display; their capacity is declared in `hwc_utils.h`, outside the two
files, so the model does not bound the index. `devices` stands for all state behind the
device pointers of the context (overlay, framebuffer device, external display, the
static state of the selectors), which only the parameters below read or change. -/
structure hwc_context_t where
  overlayInUse : Bool
  mSecuring : Bool
  numHwLayers : Nat
  listStats : Nat → ListStats
  dpyAttr : Nat → DisplayAttributes
  devices : Nat

/-- What a called function may do to the layers of the list it is handed: rewrite each
layer in place. The layer count `numHwLayers` is the caller's and stays as it is. -/
abbrev LayerEdit := Nat → hwc_layer_1_t → hwc_layer_1_t

/-- Apply an edit to the layers of a list, `i` being the index of its first layer. -/
def editFrom (e : LayerEdit) (i : Nat) : List hwc_layer_1_t → List hwc_layer_1_t
  | [] => []
  | l :: ls => e i l :: editFrom e (i + 1) ls

/-- Apply an edit to a whole layer list. -/
def editLayers (e : LayerEdit) (ls : List hwc_layer_1_t) : List hwc_layer_1_t :=
  editFrom e 0 ls

/-- The value of `list->hwLayers[i]`. The code only indexes with `numHwLayers - 1` on a
list with `numHwLayers ≠ 0`, so the fallback for an index past the end is never used. -/
def layerAt (ls : List hwc_layer_1_t) (i : Nat) : hwc_layer_1_t :=
  ls.getD i (mkLayer none 0)

/-- The functions `hwc.cpp` calls and neither file defines. Each gets the context (and so
the devices) and may change it; those handed the layer list or a layer may rewrite it.
`setListStats` is the classifier `hwc_prepare_primary` calls (`hwc_utils.cpp` defines
`getLayerStats(ctx, list)` instead); `hwc_sync_dpy` is the three-argument
`hwc_sync(ctx, list, dpy)` called by `hwc_set_primary` (`hwc_utils.cpp` defines only the
one-argument `hwc_sync(list)`). -/
structure Collaborators where
  setListStats : hwc_context_t → List hwc_layer_1_t → Nat → hwc_context_t × LayerEdit
  VideoOverlay_prepare :
    hwc_context_t → List hwc_layer_1_t → Nat → Bool × hwc_context_t × LayerEdit
  UIMirrorOverlay_prepare :
    hwc_context_t → hwc_layer_1_t → Bool × hwc_context_t × hwc_layer_1_t
  MDPComp_configure : hwc_context_t → List hwc_layer_1_t → Bool × hwc_context_t × LayerEdit
  mOverlay_setState_closed : hwc_context_t → hwc_context_t
  mFbDev_compositionComplete : hwc_context_t → hwc_context_t
  hwc_sync_dpy : hwc_context_t → List hwc_layer_1_t → Nat → hwc_context_t × LayerEdit
  VideoOverlay_draw : hwc_context_t → List hwc_layer_1_t → Nat → hwc_context_t × LayerEdit
  MDPComp_draw : hwc_context_t → List hwc_layer_1_t → hwc_context_t × LayerEdit
  UIMirrorOverlay_draw : hwc_context_t → hwc_layer_1_t → hwc_context_t × hwc_layer_1_t
  mExtDisplay_post : hwc_context_t → hwc_context_t
  mFbDev_post : hwc_context_t → Option Nat → hwc_context_t

/-- The calls made on the collaborators, in the order they are made. A selector's event
records what it returned; `fbPost` records the buffer handle it was given. -/
inductive Event where
  | setListStats (dpy : Nat)
  | videoPrepare (dpy : Nat) (claimed : Bool)
  | mirrorPrepare (claimed : Bool)
  | mdpConfigure (claimed : Bool)
  | overlayClosed
  | compositionComplete
  | sync (dpy : Nat)
  | videoDraw (dpy : Nat)
  | mdpDraw
  | mirrorDraw
  | extPost
  | fbPost (handle : Option Nat)
deriving DecidableEq, Repr

/-- Whether an event is a call of one of the three selectors. -/
def Event.isSelector : Event → Bool
  | .videoPrepare _ _ => true
  | .mirrorPrepare _ => true
  | .mdpConfigure _ => true
  | _ => false

/-- Whether an event is a selector call that returned true. -/
def Event.claimed : Event → Bool
  | .videoPrepare _ b => b
  | .mirrorPrepare b => b
  | .mdpConfigure b => b
  | _ => false

/-- `getLayerStats` as a whole: the statistics pushed to the selectors and the context
with `numHwLayers` stored (line 152). -/
def getLayerStatsCtx (p : BufferPreds) (ctx : hwc_context_t) (list : List hwc_layer_1_t) :
    LayerStats × hwc_context_t :=
  (getLayerStats p list, { ctx with numHwLayers := list.length })

/-! ## `reset`, `hwc_prepare_primary`, `hwc_prepare_external`, `hwc_prepare` -/

/-- The all-zero `ListStats` left by `memset`. -/
def zeroListStats : ListStats := { yuvIndex := 0, rest := 0 }

/-- The assignment `ctx->listStats[i].yuvIndex = -1`. -/
def setYuvIndex (ls : Nat → ListStats) (i : Nat) : Nat → ListStats :=
  fun j => if j = i then { ls j with yuvIndex := -1 } else ls j

/-- `reset` (hwc.cpp 76-81): clear `listStats`, then set `yuvIndex` to -1 for the
indices below `numDisplays` (an `int` parameter, hence the conversion). -/
def reset (ctx : hwc_context_t) (numDisplays : Nat) : hwc_context_t :=
  { ctx with
    listStats := (List.range (int32 numDisplays).toNat).foldl setYuvIndex
      (fun _ => zeroListStats) }

/-- What a prepare or set function leaves behind: its return value, the context, the
layer list it was handed and the collaborator calls it made. -/
structure ListResult where
  ret : Int
  ctx : hwc_context_t
  list : Option (List hwc_layer_1_t)
  log : List Event

/-- `hwc_prepare_primary` (hwc.cpp 83-101). -/
def hwc_prepare_primary (c : Collaborators) (ctx : hwc_context_t)
    (list : Option (List hwc_layer_1_t)) : ListResult :=
  match list with
  | none => { ret := 0, ctx := ctx, list := none, log := [] }
  | some ls =>
    if ls.length ≠ 0 then
      let last := ls.length - 1
      let r0 := c.setListStats ctx ls HWC_DISPLAY_PRIMARY
      let ls0 := editLayers r0.2 ls
      let e0 := [Event.setListStats HWC_DISPLAY_PRIMARY]
      let r1 := c.VideoOverlay_prepare r0.1 ls0 HWC_DISPLAY_PRIMARY
      let ls1 := editLayers r1.2.2 ls0
      let e1 := e0 ++ [Event.videoPrepare HWC_DISPLAY_PRIMARY r1.1]
      if r1.1 then
        { ret := 0, ctx := { r1.2.1 with overlayInUse := true }, list := some ls1, log := e1 }
      else
        let r2 := c.UIMirrorOverlay_prepare r1.2.1 (layerAt ls1 last)
        let ls2 := ls1.set last r2.2.2
        let e2 := e1 ++ [Event.mirrorPrepare r2.1]
        if r2.1 then
          { ret := 0, ctx := { r2.2.1 with overlayInUse := true }, list := some ls2,
            log := e2 }
        else
          let r3 := c.MDPComp_configure r2.2.1 ls2
          let ls3 := editLayers r3.2.2 ls2
          let e3 := e2 ++ [Event.mdpConfigure r3.1]
          if r3.1 then
            { ret := 0, ctx := { r3.2.1 with overlayInUse := true }, list := some ls3,
              log := e3 }
          else
            { ret := 0, ctx := { r3.2.1 with overlayInUse := false }, list := some ls3,
              log := e3 }
    else { ret := 0, ctx := ctx, list := some ls, log := [] }

/-- `hwc_prepare_external` (hwc.cpp 103-112): nothing to do for now. -/
def hwc_prepare_external (_c : Collaborators) (ctx : hwc_context_t)
    (list : Option (List hwc_layer_1_t)) : ListResult :=
  { ret := 0, ctx := ctx, list := list, log := [] }

/-- The body of the loop of `hwc_prepare` (hwc.cpp 127-142) for display index `i`, `ret`
being the status so far. -/
def prepareDisplay (c : Collaborators) (i : Nat) (ret : Int) (ctx : hwc_context_t)
    (list : Option (List hwc_layer_1_t)) : ListResult :=
  match list with
  | none => { ret := ret, ctx := ctx, list := none, log := [] }
  | some ls =>
    if ls.length ≠ 0 then
      let last := ls.length - 1
      if (layerAt ls last).handle ≠ none then
        if i = HWC_DISPLAY_PRIMARY then hwc_prepare_primary c ctx (some ls)
        else if i = HWC_DISPLAY_EXTERNAL then hwc_prepare_external c ctx (some ls)
        else { ret := -EINVAL, ctx := ctx, list := some ls, log := [] }
      else { ret := ret, ctx := ctx, list := some ls, log := [] }
    else { ret := ret, ctx := ctx, list := some ls, log := [] }

/-- What a device entry point leaves behind: its return value, the context, the display
array and the collaborator calls made. -/
structure DeviceResult where
  ret : Int
  ctx : hwc_context_t
  displays : List (Option (List hwc_layer_1_t))
  log : List Event

/-- The loop of `hwc_prepare` from display index `i` on. -/
def prepareLoop (c : Collaborators) (i : Nat) (ret : Int) (ctx : hwc_context_t) :
    List (Option (List hwc_layer_1_t)) → DeviceResult
  | [] => { ret := ret, ctx := ctx, displays := [], log := [] }
  | list :: rest =>
    let r := prepareDisplay c i ret ctx list
    let t := prepareLoop c (i + 1) r.ret r.ctx rest
    { ret := t.ret, ctx := t.ctx, displays := r.list :: t.displays, log := r.log ++ t.log }

/-- `hwc_prepare` (hwc.cpp 114-145). The array `displays` has `numDisplays` entries. -/
def hwc_prepare (c : Collaborators) (ctx : hwc_context_t)
    (displays : List (Option (List hwc_layer_1_t))) : DeviceResult :=
  let ctx0 := reset { ctx with overlayInUse := false } displays.length
  if ctx0.mSecuring == true then { ret := 0, ctx := ctx0, displays := displays, log := [] }
  else prepareLoop c 0 0 ctx0 displays

/-! ## `hwc_set_primary`, `hwc_set_external`, `hwc_set` -/

/-- `hwc_set_primary` (hwc.cpp 235-257). -/
def hwc_set_primary (c : Collaborators) (ctx : hwc_context_t)
    (list : Option (List hwc_layer_1_t)) : ListResult :=
  match list with
  | none => { ret := 0, ctx := ctx, list := none, log := [] }
  | some ls =>
    if ls.length ≠ 0 then
      let ctx1 := c.mFbDev_compositionComplete ctx
      let r2 := c.hwc_sync_dpy ctx1 ls HWC_DISPLAY_PRIMARY
      let ls2 := editLayers r2.2 ls
      let r3 := c.VideoOverlay_draw r2.1 ls2 HWC_DISPLAY_PRIMARY
      let ls3 := editLayers r3.2 ls2
      let r4 := c.MDPComp_draw r3.1 ls3
      let ls4 := editLayers r4.2 ls3
      let e4 := [Event.compositionComplete, Event.sync HWC_DISPLAY_PRIMARY,
        Event.videoDraw HWC_DISPLAY_PRIMARY, Event.mdpDraw]
      let last := ls4.length - 1
      let r5 := if (r4.1.dpyAttr HWC_DISPLAY_EXTERNAL).isActive then
          c.UIMirrorOverlay_draw r4.1 (layerAt ls4 last)
        else (r4.1, layerAt ls4 last)
      let e5 := if (r4.1.dpyAttr HWC_DISPLAY_EXTERNAL).isActive then e4 ++ [Event.mirrorDraw]
        else e4
      let ls5 := ls4.set last r5.2
      let ctx6 := if (r5.1.dpyAttr HWC_DISPLAY_EXTERNAL).isActive then
          c.mExtDisplay_post r5.1
        else r5.1
      let e6 := if (r5.1.dpyAttr HWC_DISPLAY_EXTERNAL).isActive then e5 ++ [Event.extPost]
        else e5
      if (layerAt ls5 last).compositionType = HWC_FRAMEBUFFER_TARGET then
        { ret := 0, ctx := c.mFbDev_post ctx6 (layerAt ls5 last).handle, list := some ls5,
          log := e6 ++ [Event.fbPost (layerAt ls5 last).handle] }
      else { ret := 0, ctx := ctx6, list := some ls5, log := e6 }
    else { ret := 0, ctx := ctx, list := some ls, log := [] }

/-- `hwc_set_external` (hwc.cpp 259-270): the body of its inner `if` is a comment, so it
reads the list and the context and does nothing. -/
def hwc_set_external (_c : Collaborators) (ctx : hwc_context_t)
    (list : Option (List hwc_layer_1_t)) : ListResult :=
  { ret := 0, ctx := ctx, list := list, log := [] }

/-- The `switch` of `hwc_set` (hwc.cpp 283-290) for display index `i`. No case ends in
`break`: the primary case runs on into the external case, and both into `default`. -/
def setDisplay (c : Collaborators) (i : Nat) (ret : Int) (ctx : hwc_context_t)
    (list : Option (List hwc_layer_1_t)) : ListResult :=
  let r1 := if i = HWC_DISPLAY_PRIMARY then hwc_set_primary c ctx list
    else { ret := ret, ctx := ctx, list := list, log := [] }
  let r2 := if i = HWC_DISPLAY_PRIMARY ∨ i = HWC_DISPLAY_EXTERNAL then
      let x := hwc_set_external c r1.ctx r1.list
      { ret := x.ret, ctx := x.ctx, list := x.list, log := r1.log ++ x.log }
    else r1
  { ret := -EINVAL, ctx := r2.ctx, list := r2.list, log := r2.log }

/-- The loop of `hwc_set` from display index `i` on. -/
def setLoop (c : Collaborators) (i : Nat) (ret : Int) (ctx : hwc_context_t) :
    List (Option (List hwc_layer_1_t)) → DeviceResult
  | [] => { ret := ret, ctx := ctx, displays := [], log := [] }
  | list :: rest =>
    let r := setDisplay c i ret ctx list
    let t := setLoop c (i + 1) r.ret r.ctx rest
    { ret := t.ret, ctx := t.ctx, displays := r.list :: t.displays, log := r.log ++ t.log }

/-- `hwc_set` (hwc.cpp 272-293). The array `displays` has `numDisplays` entries. -/
def hwc_set (c : Collaborators) (ctx : hwc_context_t)
    (displays : List (Option (List hwc_layer_1_t))) : DeviceResult :=
  let ctx0 := if !ctx.overlayInUse then c.mOverlay_setState_closed ctx else ctx
  let e0 := if !ctx.overlayInUse then [Event.overlayClosed] else []
  let t := setLoop c 0 0 ctx0 displays
  { ret := t.ret, ctx := t.ctx, displays := t.displays, log := e0 ++ t.log }

/-- Collaborators that do nothing: selectors decline, nothing changes. -/
def idleCollaborators : Collaborators :=
  { setListStats := fun ctx _ _ => (ctx, fun _ l => l)
    VideoOverlay_prepare := fun ctx _ _ => (false, ctx, fun _ l => l)
    UIMirrorOverlay_prepare := fun ctx l => (false, ctx, l)
    MDPComp_configure := fun ctx _ => (false, ctx, fun _ l => l)
    mOverlay_setState_closed := fun ctx => ctx
    mFbDev_compositionComplete := fun ctx => ctx
    hwc_sync_dpy := fun ctx _ _ => (ctx, fun _ l => l)
    VideoOverlay_draw := fun ctx _ _ => (ctx, fun _ l => l)
    MDPComp_draw := fun ctx _ => (ctx, fun _ l => l)
    UIMirrorOverlay_draw := fun ctx l => (ctx, l)
    mExtDisplay_post := fun ctx => ctx
    mFbDev_post := fun ctx _ => ctx }

/-- Collaborators whose video selector claims and marks every layer but the
framebuffer target as overlay; the other two selectors would claim as well. -/
def videoCollaborators : Collaborators :=
  { idleCollaborators with
    VideoOverlay_prepare := fun ctx _ _ =>
      (true, ctx, fun _ l =>
        if l.compositionType = HWC_FRAMEBUFFER_TARGET then l
        else { l with compositionType := HWC_OVERLAY })
    UIMirrorOverlay_prepare := fun ctx l => (true, ctx, l)
    MDPComp_configure := fun ctx _ => (true, ctx, fun _ l => l) }

/-- A context for examples: 1080x1920 primary, inactive external display. -/
def sampleCtx : hwc_context_t :=
  { overlayInUse := false, mSecuring := false, numHwLayers := 0,
    listStats := fun _ => zeroListStats,
    dpyAttr := fun i =>
      if i = HWC_DISPLAY_PRIMARY then
        { vsync_period := 16666666, xres := 1080, yres := 1920, xdpi := 320, ydpi := 320,
          isActive := true }
      else
        { vsync_period := 0, xres := 0, yres := 0, xdpi := 0, ydpi := 0, isActive := false },
    devices := 0 }

/-- A framebuffer-target layer with the given buffer handle. -/
def fbTarget (handle : Option Nat) : hwc_layer_1_t :=
  { compositionType := HWC_FRAMEBUFFER_TARGET, flags := 0, handle := handle,
    acquireFenceFd := -1, releaseFenceFd := -1 }

/-! ## `hwc_sync` (hwc_utils.cpp 242-296) -/

/-- The system calls of `hwc_sync` and the build flag it depends on. `openFb` is what
`open("/dev/graphics/fb0", O_RDWR)` returns; `bufferSync` is the `MSMFB_BUFFER_SYNC`
ioctl, from the acquire fences handed over to its return value and the value it leaves
in `releaseFd`; `dup i fd` is what `dup(fd)` returns when called for layer `i`. -/
structure SyncEnv where
  useFenceSync : Bool
  openFb : Int
  bufferSync : List Int → Int × Int
  dup : Nat → Int → Int

/-- The system calls `hwc_sync` makes on file descriptors. -/
inductive SysCall where
  | openFb
  | bufferSync (fbFd : Int) (acquireFds : List Int)
  | close (fd : Int)
  | dup (fd : Int)
deriving DecidableEq, Repr

/-- The capacity of the local array `acquireFd` (line 246). -/
def acquireFdCapacity : Nat := 10

/-- The first loop of `hwc_sync` (lines 254-259): the acquire fences written to
`acquireFd`, in order; `count` is the length of the result. -/
def collectAcquireFds : List hwc_layer_1_t → List Int
  | [] => []
  | l :: ls =>
    if l.compositionType = HWC_OVERLAY ∧ l.acquireFenceFd ≠ -1 then
      l.acquireFenceFd :: collectAcquireFds ls
    else collectAcquireFds ls

/-- The body of the second loop of `hwc_sync` (lines 280-289) for layer `i`: the layer
as it leaves it and the system calls it makes. -/
def closeStep (env : SyncEnv) (releaseFd : Int) (i : Nat) (l : hwc_layer_1_t) :
    hwc_layer_1_t × List SysCall :=
  if l.compositionType = HWC_OVERLAY then
    let l1 := if l.acquireFenceFd > 0 then { l with acquireFenceFd := -1 } else l
    let e1 := if l.acquireFenceFd > 0 then [SysCall.close l.acquireFenceFd] else []
    let l2 := if releaseFd ≠ -1 then { l1 with releaseFenceFd := env.dup i releaseFd }
      else l1
    let e2 := if releaseFd ≠ -1 then [SysCall.dup releaseFd] else []
    (l2, e1 ++ e2)
  else (l, [])

/-- The second loop of `hwc_sync` (lines 279-290) from layer index `i` on: the layers as
it leaves them and the system calls it makes. -/
def closeLoop (env : SyncEnv) (releaseFd : Int) (i : Nat) :
    List hwc_layer_1_t → List hwc_layer_1_t × List SysCall
  | [] => ([], [])
  | l :: ls =>
    let s := closeStep env releaseFd i l
    let t := closeLoop env releaseFd (i + 1) ls
    (s.1 :: t.1, s.2 ++ t.2)

/-- What `hwc_sync` leaves behind: its return value, the layers, the system calls. -/
structure SyncResult where
  ret : Int
  list : List hwc_layer_1_t
  calls : List SysCall
deriving DecidableEq, Repr

/-- `hwc_sync(list)` (hwc_utils.cpp 242-296). The result is `none` when the first loop
writes past the end of `acquireFd`, where the behaviour of the C code is undefined. -/
def hwc_sync (env : SyncEnv) (list : List hwc_layer_1_t) : Option SyncResult :=
  if env.useFenceSync then
    let acquireFd := collectAcquireFds list
    let count := acquireFd.length
    if count > acquireFdCapacity then none
    else if count ≠ 0 then
      let fbFd := env.openFb
      if fbFd < 0 then some { ret := -1, list := list, calls := [SysCall.openFb] }
      else
        let r := env.bufferSync acquireFd
        let releaseFd := r.2
        let t := closeLoop env releaseFd 0 list
        let e := if releaseFd ≠ -1 then [SysCall.close releaseFd] else []
        some { ret := r.1, list := t.1,
               calls := [SysCall.openFb, SysCall.bufferSync fbFd acquireFd,
                         SysCall.close fbFd] ++ t.2 ++ e }
    else some { ret := 0, list := list, calls := [] }
  else some { ret := 0, list := list, calls := [] }

/-- A layer claimed by an overlay, with the given acquire fence. -/
def overlayLayer (acquireFenceFd : Int) : hwc_layer_1_t :=
  { compositionType := HWC_OVERLAY, flags := 0, handle := some 1,
    acquireFenceFd := acquireFenceFd, releaseFenceFd := -1 }

/-- A system in which the framebuffer device cannot be opened. -/
def envOpenFails : SyncEnv :=
  { useFenceSync := true, openFb := -1, bufferSync := fun _ => (0, 40),
    dup := fun i _ => 41 + i }

/-- A system in which every call succeeds: the device opens as descriptor 30, the
ioctl returns 0 and release fence 40, the duplicates are 41, 42, ... -/
def envAllSucceed : SyncEnv :=
  { useFenceSync := true, openFb := 30, bufferSync := fun _ => (0, 40),
    dup := fun i _ => 41 + i }

/-- A system in which the buffer-sync ioctl fails and leaves `releaseFd` at -1. -/
def envIoctlFails : SyncEnv :=
  { useFenceSync := true, openFb := 30, bufferSync := fun _ => (-1, -1),
    dup := fun i _ => 41 + i }

/-- What `hwc_sync` does to the layers of `list`, as an edit: the second loop when it
is reached, nothing otherwise. -/
def syncEdit (env : SyncEnv) (list : List hwc_layer_1_t) : LayerEdit :=
  if env.useFenceSync = true ∧ (collectAcquireFds list).length ≠ 0 ∧ ¬ env.openFb < 0 then
    fun i l => (closeStep env (env.bufferSync (collectAcquireFds list)).2 i l).1
  else fun _ l => l

/-- Collaborators whose three-argument `hwc_sync` treats the layers the way the
`hwc_sync` of `hwc_utils.cpp` does in the system `env`, and that are otherwise idle. -/
def syncCollaborators (env : SyncEnv) : Collaborators :=
  { idleCollaborators with
    hwc_sync_dpy := fun ctx list _ => (ctx, syncEdit env list) }

/-! ## `hwc_getDisplayAttributes` (hwc.cpp 315-358) -/

/-- Attribute ids of `hardware/hwcomposer_defs.h`. -/
def HWC_DISPLAY_NO_ATTRIBUTE : Nat := 0
/-- Attribute id of the vsync period. -/
def HWC_DISPLAY_VSYNC_PERIOD : Nat := 1
/-- Attribute id of the width. -/
def HWC_DISPLAY_WIDTH : Nat := 2
/-- Attribute id of the height. -/
def HWC_DISPLAY_HEIGHT : Nat := 3
/-- Attribute id of the horizontal density. -/
def HWC_DISPLAY_DPI_X : Nat := 4
/-- Attribute id of the vertical density. -/
def HWC_DISPLAY_DPI_Y : Nat := 5

/-- The static table `DISPLAY_ATTRIBUTES` (lines 320-327). -/
def DISPLAY_ATTRIBUTES : List Nat :=
  [HWC_DISPLAY_VSYNC_PERIOD, HWC_DISPLAY_WIDTH, HWC_DISPLAY_HEIGHT, HWC_DISPLAY_DPI_X,
   HWC_DISPLAY_DPI_Y, HWC_DISPLAY_NO_ATTRIBUTE]

/-- The constant `NUM_DISPLAY_ATTRIBUTES` (lines 329-330). -/
def NUM_DISPLAY_ATTRIBUTES : Nat := DISPLAY_ATTRIBUTES.length

/-- The conversion `(int32_t) (dpi*1000.0)`: the product is exact in `double` for every
finite `float`, the cast drops the fraction. -/
def dpiValue (dpi : Rat) : Int := int32 ((dpi * 1000).num.tdiv (dpi * 1000).den)

/-- The value the `switch` (lines 333-355) stores for an attribute id, `none` in the
`default` case. -/
def attributeValue (a : DisplayAttributes) (id : Nat) : Option Int :=
  if id = HWC_DISPLAY_VSYNC_PERIOD then some (int32 a.vsync_period)
  else if id = HWC_DISPLAY_WIDTH then some (int32 a.xres)
  else if id = HWC_DISPLAY_HEIGHT then some (int32 a.yres)
  else if id = HWC_DISPLAY_DPI_X then some (dpiValue a.xdpi)
  else if id = HWC_DISPLAY_DPI_Y then some (dpiValue a.ydpi)
  else none

/-- The assignment `values[i] = v`. -/
def writeValue (values : Nat → Int) (i : Nat) (v : Int) : Nat → Int :=
  fun j => if j = i then v else values j

/-- The loop of `hwc_getDisplayAttributes` with `n` iterations to go, at index `i`: the
status returned and the output array. The result is `none` when the loop reads
`attributes[i]` past the end of the caller's array. -/
def attributesLoop (a : DisplayAttributes) (attributes : List Nat) :
    Nat → Nat → (Nat → Int) → Option (Int × (Nat → Int))
  | 0, _, values => some (0, values)
  | n + 1, i, values =>
    match attributes[i]? with
    | none => none
    | some id =>
      match attributeValue a id with
      | some v => attributesLoop a attributes n (i + 1) (writeValue values i v)
      | none => some (-EINVAL, values)

/-- What `hwc_getDisplayAttributes` leaves behind. -/
structure AttributesResult where
  ret : Int
  values : Nat → Int
  ctx : hwc_context_t

/-- `hwc_getDisplayAttributes` (hwc.cpp 315-358); `attributes` is the caller's array
including its terminator, `values` the output array before the call. -/
def hwc_getDisplayAttributes (ctx : hwc_context_t) (disp : Nat) (_config : Nat)
    (attributes : List Nat) (values : Nat → Int) : Option AttributesResult :=
  match attributesLoop (ctx.dpyAttr disp) attributes (NUM_DISPLAY_ATTRIBUTES - 1) 0
      values with
  | none => none
  | some r => some { ret := r.1, values := r.2, ctx := ctx }

/-- Whether an attribute id is one of the five the `switch` knows. -/
def isRecognised (id : Nat) : Bool :=
  id == HWC_DISPLAY_VSYNC_PERIOD || id == HWC_DISPLAY_WIDTH || id == HWC_DISPLAY_HEIGHT
    || id == HWC_DISPLAY_DPI_X || id == HWC_DISPLAY_DPI_Y

/-- The guard of the loop of `hwc_prepare` (lines 128-130): the list is not `NULL`, has
layers, and the handle of its last layer is not `NULL`. -/
def passesGuard (list : Option (List hwc_layer_1_t)) : Bool :=
  match list with
  | none => false
  | some ls => decide (ls.length ≠ 0) && decide ((layerAt ls (ls.length - 1)).handle ≠ none)

/-- A context like `sampleCtx` in which the securing flag is set. -/
def securingCtx : hwc_context_t := { sampleCtx with mSecuring := true, overlayInUse := true }

/-- A context like `sampleCtx` in which the external display is active too. -/
def externalActiveCtx : hwc_context_t :=
  { sampleCtx with
    dpyAttr := fun _ =>
      { vsync_period := 16666666, xres := 1080, yres := 1920, xdpi := 320, ydpi := 320,
        isActive := true } }

/-- An edit that leaves the composition type and the buffer handle of every layer as
they are (it may change fences and flags). -/
def KeepsTarget (e : LayerEdit) : Prop :=
  ∀ (i : Nat) (l : hwc_layer_1_t),
    (e i l).compositionType = l.compositionType ∧ (e i l).handle = l.handle

/-- A layer rewrite that leaves the composition type and the buffer handle. -/
def SameTarget (l l1 : hwc_layer_1_t) : Prop :=
  l1.compositionType = l.compositionType ∧ l1.handle = l.handle

/-! ## The selector chain of `hwc_prepare_primary`, call by call -/

/-- What `setListStats` returns on the context and list handed to
`hwc_prepare_primary`. -/
def statsCall (c : Collaborators) (ctx : hwc_context_t) (ls : List hwc_layer_1_t) :
    hwc_context_t × LayerEdit :=
  c.setListStats ctx ls HWC_DISPLAY_PRIMARY

/-- What `VideoOverlay::prepare` returns when it is called first, on the context and
layers `setListStats` left. -/
def videoCall (c : Collaborators) (ctx : hwc_context_t) (ls : List hwc_layer_1_t) :
    Bool × hwc_context_t × LayerEdit :=
  c.VideoOverlay_prepare (statsCall c ctx ls).1 (editLayers (statsCall c ctx ls).2 ls)
    HWC_DISPLAY_PRIMARY

/-- The layers as the video selector leaves them. -/
def layersAfterVideo (c : Collaborators) (ctx : hwc_context_t) (ls : List hwc_layer_1_t) :
    List hwc_layer_1_t :=
  editLayers (videoCall c ctx ls).2.2 (editLayers (statsCall c ctx ls).2 ls)

/-- What `UIMirrorOverlay::prepare` returns when it is called second, on the context the
video selector left and the last layer of the list. -/
def mirrorCall (c : Collaborators) (ctx : hwc_context_t) (ls : List hwc_layer_1_t) :
    Bool × hwc_context_t × hwc_layer_1_t :=
  c.UIMirrorOverlay_prepare (videoCall c ctx ls).2.1
    (layerAt (layersAfterVideo c ctx ls) (ls.length - 1))

/-- The layers as the mirror selector leaves them: it may have rewritten the last. -/
def layersAfterMirror (c : Collaborators) (ctx : hwc_context_t) (ls : List hwc_layer_1_t) :
    List hwc_layer_1_t :=
  (layersAfterVideo c ctx ls).set (ls.length - 1) (mirrorCall c ctx ls).2.2

/-- What `MDPComp::configure` returns when it is called third, on the context and
layers the mirror selector left. -/
def mdpCall (c : Collaborators) (ctx : hwc_context_t) (ls : List hwc_layer_1_t) :
    Bool × hwc_context_t × LayerEdit :=
  c.MDPComp_configure (mirrorCall c ctx ls).2.1 (layersAfterMirror c ctx ls)

/-- Collaborators whose video and mirror selectors decline and whose MDP selector
claims; each selector called adds its mark (1, 10, 100) to the device state. -/
def mdpCollaborators : Collaborators :=
  { idleCollaborators with
    VideoOverlay_prepare := fun ctx _ _ =>
      (false, { ctx with devices := ctx.devices + 1 }, fun _ l => l)
    UIMirrorOverlay_prepare := fun ctx l =>
      (false, { ctx with devices := ctx.devices + 10 }, l)
    MDPComp_configure := fun ctx _ =>
      (true, { ctx with devices := ctx.devices + 100 },
        fun _ l => if l.compositionType = HWC_FRAMEBUFFER_TARGET then l
          else { l with compositionType := HWC_OVERLAY }) }

/-! ## `hwc_blank` (hwc.cpp 169-203) -/

/-- Arguments of the `FBIOBLANK` ioctl (`linux/fb.h`). -/
def FB_BLANK_UNBLANK : Nat := 0
/-- Argument of `FBIOBLANK` that powers the panel down. -/
def FB_BLANK_POWERDOWN : Nat := 4

/-- The calls `hwc_blank` makes on the overlay and on the framebuffer, in order. -/
inductive BlankCall where
  | overlayClosed
  | fbioblank (arg : Nat)
deriving DecidableEq, Repr

/-- What `hwc_blank` leaves behind: its return value, the context, the calls made. -/
structure BlankResult where
  ret : Int
  ctx : hwc_context_t
  calls : List BlankCall

/-- The assignment `ctx->dpyAttr[dpy].isActive = v`. -/
def setIsActive (ctx : hwc_context_t) (dpy : Nat) (v : Bool) : hwc_context_t :=
  { ctx with
    dpyAttr := fun j => if j = dpy then { ctx.dpyAttr j with isActive := v }
      else ctx.dpyAttr j }

/-- The end of `hwc_blank` (lines 195-202), reached from the primary and the external
case with the status `ret` so far. -/
def blankFinish (ctx : hwc_context_t) (dpy : Int) (blank : Int) (ret : Int)
    (calls : List BlankCall) : BlankResult :=
  if ret < 0 then { ret := ret, ctx := ctx, calls := calls }
  else { ret := 0, ctx := setIsActive ctx dpy.toNat (decide (blank = 0)), calls := calls }

/-- `hwc_blank` (hwc.cpp 169-203). `fbioblank devices arg` is the ioctl
`ioctl(m->framebuffer->fd, FBIOBLANK, arg)` in the device state `devices`: its return
value and the device state it leaves. `dpy` and `blank` are C `int`s. -/
def hwc_blank (c : Collaborators) (fbioblank : Nat → Nat → Int × Nat)
    (ctx : hwc_context_t) (dpy : Int) (blank : Int) : BlankResult :=
  if dpy = (HWC_DISPLAY_PRIMARY : Nat) then
    if blank ≠ 0 then
      let ctx1 := c.mOverlay_setState_closed ctx
      let r := fbioblank ctx1.devices FB_BLANK_POWERDOWN
      blankFinish { ctx1 with devices := r.2 } dpy blank r.1
        [BlankCall.overlayClosed, BlankCall.fbioblank FB_BLANK_POWERDOWN]
    else
      let r := fbioblank ctx.devices FB_BLANK_UNBLANK
      blankFinish { ctx with devices := r.2 } dpy blank r.1
        [BlankCall.fbioblank FB_BLANK_UNBLANK]
  else if dpy = (HWC_DISPLAY_EXTERNAL : Nat) then
    blankFinish ctx dpy blank 0 []
  else { ret := -EINVAL, ctx := ctx, calls := [] }

/-- A framebuffer whose `FBIOBLANK` always succeeds; the device state counts the calls. -/
def fbioblankSucceeds : Nat → Nat → Int × Nat := fun devices _ => (0, devices + 1)

/-- Collaborators whose overlay records `setState(OV_CLOSED)` by adding 100 to the
device state, and that are otherwise idle. -/
def closingCollaborators : Collaborators :=
  { idleCollaborators with
    mOverlay_setState_closed := fun ctx => { ctx with devices := ctx.devices + 100 } }

/-! ## The writes to `acquireFd` in `hwc_sync` (hwc_utils.cpp 254-259) -/

/-- The writes `acquireFd[count++] = fd` of the first loop of `hwc_sync`, as pairs of
index and value in the order they are made, `count` being the counter on entry. -/
def acquireWrites (count : Nat) : List hwc_layer_1_t → List (Nat × Int)
  | [] => []
  | l :: ls =>
    if l.compositionType = HWC_OVERLAY ∧ l.acquireFenceFd ≠ -1 then
      (count, l.acquireFenceFd) :: acquireWrites (count + 1) ls
    else acquireWrites count ls

/-- Eleven layers claimed by an overlay, with acquire fences 100, 101, ..., 110. -/
def elevenOverlayLayers : List hwc_layer_1_t :=
  (List.range 11).map (fun i => overlayLayer (100 + (i : Int)))

/-! ## Lemmas on `int32` -/

theorem int32_add_int32 (a b : Int) : int32 (int32 a + b) = int32 (a + b) := by
  unfold int32
  omega

theorem int32_int32 (a : Int) : int32 (int32 a) = int32 a := by
  unfold int32
  omega

theorem int32_le_self (a : Int) (h : 0 ≤ a) : int32 a ≤ a := by
  unfold int32
  omega

theorem int32_of_small (a : Int) (h0 : -2147483648 ≤ a) (h1 : a < 2147483648) :
    int32 a = a := by
  unfold int32
  omega

/-! ## Lemmas on the loop of `getLayerStats` -/

theorem statsStep_isYuvLayerSkip (p : BufferPreds) (s : LayerStats) (i : Nat)
    (l : hwc_layer_1_t) :
    (statsStep p s i l).isYuvLayerSkip = (s.isYuvLayerSkip || isUnsecureSkipYuv p l) := by
  cases h1 : p.isYuvBuffer l.handle <;> cases h2 : p.isSkipLayer l <;>
    cases h3 : p.isSecureBuffer l.handle <;>
    simp [statsStep, isUnsecureSkipYuv, h1, h2, h3] <;> split_ifs <;> simp

theorem statsLoop_isYuvLayerSkip (p : BufferPreds) (ls : List hwc_layer_1_t) :
    ∀ (s : LayerStats) (i : Nat),
      (statsLoop p s i ls).isYuvLayerSkip
        = (s.isYuvLayerSkip || ls.any (isUnsecureSkipYuv p)) := by
  induction ls with
  | nil => intro s i; simp [statsLoop]
  | cons l ls ih =>
    intro s i
    simp only [statsLoop, ih, statsStep_isYuvLayerSkip, List.any_cons, Bool.or_assoc]

theorem statsStep_skipCount (p : BufferPreds) (s : LayerStats) (i : Nat)
    (l : hwc_layer_1_t) :
    (statsStep p s i l).skipCount
      = if (isUnsecureSkipYuv p l || isClassSkip p l) then int32 (s.skipCount + 1)
        else s.skipCount := by
  cases h1 : p.isYuvBuffer l.handle <;> cases h2 : p.isSkipLayer l <;>
    cases h3 : p.isSecureBuffer l.handle <;> cases h4 : p.isExtCC l.handle <;>
    cases h5 : p.isExtBlock l.handle <;> cases h6 : p.isExtOnly l.handle <;>
    simp [statsStep, isUnsecureSkipYuv, isClassSkip, h1, h2, h3, h4, h5, h6] <;> split_ifs <;> simp

theorem statsStep_yuvCount (p : BufferPreds) (s : LayerStats) (i : Nat)
    (l : hwc_layer_1_t) :
    (statsStep p s i l).yuvCount
      = if p.isYuvBuffer l.handle then int32 (s.yuvCount + 1) else s.yuvCount := by
  cases h1 : p.isYuvBuffer l.handle <;> cases h2 : p.isSkipLayer l <;>
    cases h3 : p.isSecureBuffer l.handle <;> cases h4 : p.isExtCC l.handle <;>
    cases h5 : p.isExtBlock l.handle <;> cases h6 : p.isExtOnly l.handle <;>
    simp [statsStep, h1, h2, h3, h4, h5, h6] <;> split_ifs <;> simp

theorem statsStep_extCount (p : BufferPreds) (s : LayerStats) (i : Nat)
    (l : hwc_layer_1_t) :
    (statsStep p s i l).extCount
      = if (isClassExtBlock p l || isClassExtOnly p l) then int32 (s.extCount + 1)
        else s.extCount := by
  cases h1 : p.isYuvBuffer l.handle <;> cases h2 : p.isSkipLayer l <;>
    cases h3 : p.isSecureBuffer l.handle <;> cases h4 : p.isExtCC l.handle <;>
    cases h5 : p.isExtBlock l.handle <;> cases h6 : p.isExtOnly l.handle <;>
    simp [statsStep, isClassExtBlock, isClassExtOnly, h1, h2, h3, h4, h5, h6] <;> split_ifs <;> simp

/-- A counter that a step either leaves alone or increments (in `int`) when the layer
satisfies `q` ends as the `int` holding the number of layers satisfying `q`. -/
theorem statsLoop_counter (p : BufferPreds) (f : LayerStats → Int)
    (q : hwc_layer_1_t → Bool)
    (hstep : ∀ s i l, f (statsStep p s i l) = if q l then int32 (f s + 1) else f s)
    (ls : List hwc_layer_1_t) :
    ∀ (s : LayerStats) (i : Nat), int32 (f s) = f s →
      f (statsLoop p s i ls) = int32 (f s + (ls.countP q : Nat)) := by
  induction ls with
  | nil => intro s i h; simp [statsLoop, h]
  | cons l ls ih =>
    intro s i h
    have h1 : int32 (f (statsStep p s i l)) = f (statsStep p s i l) := by
      rw [hstep]; split_ifs
      · exact int32_int32 _
      · exact h
    rw [statsLoop, ih _ _ h1, hstep, List.countP_cons]
    by_cases hq : q l = true
    · simp only [hq, if_true]
      rw [int32_add_int32]
      congr 1
      push_cast
      ring
    · simp only [hq]
      simp

theorem statsStep_isExtBlockPresent (p : BufferPreds) (s : LayerStats) (i : Nat)
    (l : hwc_layer_1_t) :
    (statsStep p s i l).isExtBlockPresent = (s.isExtBlockPresent || isClassExtBlock p l) := by
  cases h1 : p.isYuvBuffer l.handle <;> cases h2 : p.isSkipLayer l <;>
    cases h3 : p.isSecureBuffer l.handle <;> cases h4 : p.isExtCC l.handle <;>
    cases h5 : p.isExtBlock l.handle <;> cases h6 : p.isExtOnly l.handle <;>
    simp [statsStep, isClassExtBlock, h1, h2, h3, h4, h5, h6] <;> split_ifs <;> simp

theorem statsStep_extLayerIndex (p : BufferPreds) (s : LayerStats) (i : Nat)
    (l : hwc_layer_1_t) :
    (statsStep p s i l).extLayerIndex
      = if isClassExtBlock p l then int32 i
        else if (isClassExtOnly p l && !s.isExtBlockPresent) then int32 i
        else s.extLayerIndex := by
  cases h1 : p.isYuvBuffer l.handle <;> cases h2 : p.isSkipLayer l <;>
    cases h3 : p.isSecureBuffer l.handle <;> cases h4 : p.isExtCC l.handle <;>
    cases h5 : p.isExtBlock l.handle <;> cases h6 : p.isExtOnly l.handle <;>
    cases h7 : s.isExtBlockPresent <;>
    simp [statsStep, isClassExtBlock, isClassExtOnly, h1, h2, h3, h4, h5, h6, h7]

theorem statsStep_ccLayerIndex (p : BufferPreds) (s : LayerStats) (i : Nat)
    (l : hwc_layer_1_t) :
    (statsStep p s i l).ccLayerIndex
      = if isClassCC p l then int32 i else s.ccLayerIndex := by
  cases h1 : p.isYuvBuffer l.handle <;> cases h2 : p.isSkipLayer l <;>
    cases h3 : p.isSecureBuffer l.handle <;> cases h4 : p.isExtCC l.handle <;>
    cases h5 : p.isExtBlock l.handle <;> cases h6 : p.isExtOnly l.handle <;>
    simp [statsStep, isClassCC, h1, h2, h3, h4, h5, h6] <;> split_ifs <;> simp

/-- A layer cannot be in the BLOCK class and in the plain external-only class. -/
theorem not_extOnly_of_extBlock (p : BufferPreds) (l : hwc_layer_1_t)
    (h : isClassExtBlock p l = true) : isClassExtOnly p l = false := by
  unfold isClassExtBlock at h
  unfold isClassExtOnly
  cases h1 : p.isYuvBuffer l.handle <;> cases h4 : p.isExtCC l.handle <;>
    cases h5 : p.isExtBlock l.handle <;> simp_all

/-- The index cached in `extLayerIndex` when the loop runs from index `i` in state `s`
over the remaining layers `ls`. -/
theorem statsLoop_extLayerIndex (p : BufferPreds) (ls : List hwc_layer_1_t) :
    ∀ (s : LayerStats) (i : Nat),
      (statsLoop p s i ls).extLayerIndex =
        match lastIndexWhere (isClassExtBlock p) ls with
        | some j => int32 ((i + j : Nat) : Int)
        | none =>
          if s.isExtBlockPresent then s.extLayerIndex
          else
            match lastIndexWhere (isClassExtOnly p) ls with
            | some j => int32 ((i + j : Nat) : Int)
            | none => s.extLayerIndex := by
  induction ls with
  | nil => intro s i; simp [statsLoop, lastIndexWhere]
  | cons l ls ih =>
    intro s i
    rw [statsLoop, ih, statsStep_isExtBlockPresent, statsStep_extLayerIndex]
    simp only [lastIndexWhere]
    cases hb : lastIndexWhere (isClassExtBlock p) ls with
    | some j =>
      simp only [Nat.add_assoc, Nat.add_comm 1 j]
    | none =>
      cases hl : isClassExtBlock p l with
      | true =>
        simp
      | false =>
        cases hs : s.isExtBlockPresent with
        | true => simp
        | false =>
          cases ho : lastIndexWhere (isClassExtOnly p) ls with
          | some j => simp [Nat.add_assoc, Nat.add_comm 1 j]
          | none =>
            cases hl2 : isClassExtOnly p l <;> simp

/-- The index cached in `ccLayerIndex` when the loop runs from index `i` in state `s`. -/
theorem statsLoop_ccLayerIndex (p : BufferPreds) (ls : List hwc_layer_1_t) :
    ∀ (s : LayerStats) (i : Nat),
      (statsLoop p s i ls).ccLayerIndex =
        match lastIndexWhere (isClassCC p) ls with
        | some j => int32 ((i + j : Nat) : Int)
        | none => s.ccLayerIndex := by
  induction ls with
  | nil => intro s i; simp [statsLoop, lastIndexWhere]
  | cons l ls ih =>
    intro s i
    rw [statsLoop, ih, statsStep_ccLayerIndex]
    simp only [lastIndexWhere]
    cases hb : lastIndexWhere (isClassCC p) ls with
    | some j => simp only [Nat.add_assoc, Nat.add_comm 1 j]
    | none => cases hl : isClassCC p l <;> simp

/-- When `lastIndexWhere` finds nothing, no element satisfies `q`. -/
theorem lastIndexWhere_none {α : Type} (q : α → Bool) (xs : List α) :
    lastIndexWhere q xs = none → ∀ (j : Nat) (x : α), xs[j]? = some x → q x = false := by
  induction xs with
  | nil => intro _ j x hx; simp at hx
  | cons y ys ih =>
    intro h j x hx
    simp only [lastIndexWhere] at h
    cases hr : lastIndexWhere q ys with
    | some k => rw [hr] at h; simp at h
    | none =>
      rw [hr] at h
      cases j with
      | zero =>
        simp only [List.getElem?_cons_zero, Option.some.injEq] at hx
        subst hx
        by_cases hq : q y = true
        · simp [hq] at h
        · simpa using hq
      | succ j =>
        simp only [List.getElem?_cons_succ] at hx
        exact ih hr j x hx

/-- What `lastIndexWhere` returns is an index of the list, its element satisfies `q`
and no later element does. -/
theorem lastIndexWhere_some {α : Type} (q : α → Bool) (xs : List α) :
    ∀ (i : Nat), lastIndexWhere q xs = some i →
      (∃ x, xs[i]? = some x ∧ q x = true) ∧
        ∀ (j : Nat) (x : α), i < j → xs[j]? = some x → q x = false := by
  induction xs with
  | nil => intro i h; simp [lastIndexWhere] at h
  | cons y ys ih =>
    intro i h
    simp only [lastIndexWhere] at h
    cases hr : lastIndexWhere q ys with
    | some k =>
      rw [hr] at h
      simp only [Option.some.injEq] at h
      subst h
      obtain ⟨h1, h2⟩ := ih k hr
      refine ⟨by simpa using h1, ?_⟩
      intro j x hj hx
      cases j with
      | zero => omega
      | succ j => exact h2 j x (by omega) (by simpa using hx)
    | none =>
      rw [hr] at h
      by_cases hq : q y = true
      · simp only [hq, if_true, Option.some.injEq] at h
        subst h
        refine ⟨⟨y, by simp, hq⟩, ?_⟩
        intro j x hj hx
        cases j with
        | zero => omega
        | succ j =>
          simp only [List.getElem?_cons_succ] at hx
          exact lastIndexWhere_none q ys hr j x hx
      · simp [hq] at h

/-- The three counters count disjoint classes of layers, but for the non-secure
skip-flagged video layers, which are counted twice. -/
theorem countP_classes_le (p : BufferPreds) (ls : List hwc_layer_1_t) :
    ls.countP (fun l => p.isYuvBuffer l.handle)
      + ls.countP (fun l => isClassExtBlock p l || isClassExtOnly p l)
      + ls.countP (fun l => isUnsecureSkipYuv p l || isClassSkip p l)
      ≤ ls.length + ls.countP (isUnsecureSkipYuv p) := by
  induction ls with
  | nil => simp
  | cons l ls ih =>
    have key : (if p.isYuvBuffer l.handle = true then 1 else 0)
        + (if (isClassExtBlock p l || isClassExtOnly p l) = true then 1 else 0)
        + (if (isUnsecureSkipYuv p l || isClassSkip p l) = true then 1 else 0)
        ≤ 1 + (if isUnsecureSkipYuv p l = true then 1 else 0) := by
      cases h1 : p.isYuvBuffer l.handle <;> cases h2 : p.isSkipLayer l <;>
        cases h3 : p.isSecureBuffer l.handle <;> cases h4 : p.isExtCC l.handle <;>
        cases h5 : p.isExtBlock l.handle <;> cases h6 : p.isExtOnly l.handle <;>
        simp [isClassExtBlock, isClassExtOnly, isUnsecureSkipYuv, isClassSkip,
          h1, h2, h3, h4, h5, h6]
    simp only [List.countP_cons, List.length_cons]
    omega

theorem getLayerStats_yuvCount (p : BufferPreds) (list : List hwc_layer_1_t) :
    (getLayerStats p list).yuvCount
      = int32 ((list.countP (fun l => p.isYuvBuffer l.handle) : Nat) : Int) := by
  have h := statsLoop_counter p (fun s => s.yuvCount)
    (fun l => p.isYuvBuffer l.handle) (statsStep_yuvCount p) list initStats 0 (by decide)
  simpa [getLayerStats, initStats] using h

theorem getLayerStats_extCount (p : BufferPreds) (list : List hwc_layer_1_t) :
    (getLayerStats p list).extCount
      = int32 ((list.countP (fun l => isClassExtBlock p l || isClassExtOnly p l) : Nat)
          : Int) := by
  have h := statsLoop_counter p (fun s => s.extCount)
    (fun l => isClassExtBlock p l || isClassExtOnly p l) (statsStep_extCount p) list
    initStats 0 (by decide)
  simpa [getLayerStats, initStats] using h

theorem getLayerStats_skipCount (p : BufferPreds) (list : List hwc_layer_1_t) :
    (getLayerStats p list).skipCount
      = int32 ((list.countP (fun l => isUnsecureSkipYuv p l || isClassSkip p l) : Nat)
          : Int) := by
  have h := statsLoop_counter p (fun s => s.skipCount)
    (fun l => isUnsecureSkipYuv p l || isClassSkip p l) (statsStep_skipCount p) list
    initStats 0 (by decide)
  simpa [getLayerStats, initStats] using h

/-! ## The layer statistics (claims C1, C3, C9) -/

/-- C1: for every layer list, the yuv-skip flag computed by `getLayerStats` is true
exactly when some layer has a YUV buffer, carries the skip flag and is not secure; and
when every skip-flagged YUV layer is secure, the flag is false and `skipCount` counts the
plain skip layers only (as an `int`), so the secure video layers add nothing to it. -/
theorem getLayerStats_isYuvLayerSkip (p : BufferPreds) (list : List hwc_layer_1_t) :
    ((getLayerStats p list).isYuvLayerSkip = true ↔
      ∃ l ∈ list, p.isYuvBuffer l.handle = true ∧ p.isSkipLayer l = true ∧
        p.isSecureBuffer l.handle = false) ∧
    ((∀ l ∈ list, p.isYuvBuffer l.handle = true → p.isSkipLayer l = true →
        p.isSecureBuffer l.handle = true) →
      (getLayerStats p list).isYuvLayerSkip = false ∧
      (getLayerStats p list).skipCount
        = int32 ((list.countP (isClassSkip p) : Nat) : Int)) := by
  have hflag : (getLayerStats p list).isYuvLayerSkip = list.any (isUnsecureSkipYuv p) := by
    unfold getLayerStats
    rw [statsLoop_isYuvLayerSkip]
    simp [initStats]
  refine ⟨?_, ?_⟩
  · rw [hflag, List.any_eq_true]
    constructor
    · rintro ⟨l, hl, h⟩
      refine ⟨l, hl, ?_⟩
      simpa [isUnsecureSkipYuv, Bool.and_assoc] using h
    · rintro ⟨l, hl, h1, h2, h3⟩
      exact ⟨l, hl, by simp [isUnsecureSkipYuv, h1, h2, h3]⟩
  · intro hsec
    have hnone : ∀ l ∈ list, isUnsecureSkipYuv p l = false := by
      intro l hl
      have := hsec l hl
      unfold isUnsecureSkipYuv
      cases h1 : p.isYuvBuffer l.handle <;> cases h2 : p.isSkipLayer l <;>
        cases h3 : p.isSecureBuffer l.handle <;> simp_all
    refine ⟨?_, ?_⟩
    · rw [hflag]
      apply Bool.eq_false_iff.mpr
      intro h
      obtain ⟨l, hl, hq⟩ := List.any_eq_true.mp h
      rw [hnone l hl] at hq
      exact Bool.noConfusion hq
    · have hcount : list.countP (fun l => isUnsecureSkipYuv p l || isClassSkip p l)
          = list.countP (isClassSkip p) := by
        apply List.countP_congr
        intro l hl
        simp [hnone l hl]
      rw [getLayerStats_skipCount, hcount]

/-- C1, evaluated: a secure skip-flagged video layer, a plain skip layer and a video
layer without the skip flag give a false yuv-skip flag and a skip count of 1. -/
theorem getLayerStats_isYuvLayerSkip_witness :
    (∀ l ∈ [mkLayer (some 3) 1, mkLayer (some 0) 1, mkLayer (some 1) 0],
        samplePreds.isYuvBuffer l.handle = true → samplePreds.isSkipLayer l = true →
        samplePreds.isSecureBuffer l.handle = true) ∧
      (getLayerStats samplePreds
        [mkLayer (some 3) 1, mkLayer (some 0) 1, mkLayer (some 1) 0]).isYuvLayerSkip = false ∧
      (getLayerStats samplePreds
        [mkLayer (some 3) 1, mkLayer (some 0) 1, mkLayer (some 1) 0]).skipCount
        = int32 (([mkLayer (some 3) 1, mkLayer (some 0) 1, mkLayer (some 1) 0].countP
            (isClassSkip samplePreds) : Nat) : Int) :=
  ⟨by decide,
   (getLayerStats_isYuvLayerSkip samplePreds
      [mkLayer (some 3) 1, mkLayer (some 0) 1, mkLayer (some 1) 0]).2 (by decide)⟩

/-- C3: for every layer list, `extLayerIndex` as computed by `getLayerStats` is the
index described by the specification (last external-BLOCK layer if any, else last plain
external-only layer, else -1); `ccLayerIndex` is the index of the last closed-caption
layer (else -1); and the step for a closed-caption layer changes `ccLayerIndex` and
nothing else, whatever the external-only and BLOCK predicates say of its buffer. -/
theorem getLayerStats_extLayerIndex (p : BufferPreds) (list : List hwc_layer_1_t) :
    (getLayerStats p list).extLayerIndex = specExtLayerIndex p list ∧
    ((getLayerStats p list).ccLayerIndex =
      match lastIndexWhere (isClassCC p) list with
      | some i => int32 i
      | none => -1) ∧
    (∀ (s : LayerStats) (i : Nat) (l : hwc_layer_1_t), isClassCC p l = true →
      statsStep p s i l = { s with ccLayerIndex := int32 i }) := by
  refine ⟨?_, ?_, ?_⟩
  · unfold getLayerStats specExtLayerIndex
    rw [statsLoop_extLayerIndex]
    simp [initStats]
  · unfold getLayerStats
    rw [statsLoop_ccLayerIndex]
    simp [initStats]
  · intro s i l h
    unfold isClassCC at h
    have h1 : p.isYuvBuffer l.handle = false := by
      cases h1 : p.isYuvBuffer l.handle <;> simp_all
    have h2 : p.isExtCC l.handle = true := by
      cases h2 : p.isExtCC l.handle <;> simp_all
    simp [statsStep, h1, h2]

/-- C3, evaluated: in a list with an external-only layer, a BLOCK layer, a
closed-caption layer whose buffer is also BLOCK and external-only, and a further
external-only layer, the BLOCK layer at index 1 is cached and the caption layer at
index 2 is recorded in `ccLayerIndex` only. -/
theorem getLayerStats_extLayerIndex_witness :
    isClassCC samplePreds (mkLayer (some 28) 0) = true ∧
      statsStep samplePreds (getLayerStats samplePreds
          [mkLayer (some 16) 0, mkLayer (some 8) 0]) 2 (mkLayer (some 28) 0)
        = { getLayerStats samplePreds [mkLayer (some 16) 0, mkLayer (some 8) 0] with
            ccLayerIndex := int32 2 } ∧
      (getLayerStats samplePreds [mkLayer (some 16) 0, mkLayer (some 8) 0,
          mkLayer (some 28) 0, mkLayer (some 16) 0]).extLayerIndex = 1 :=
  ⟨by decide,
   (getLayerStats_extLayerIndex samplePreds
      [mkLayer (some 16) 0, mkLayer (some 8) 0]).2.2 _ 2 (mkLayer (some 28) 0) (by decide),
   by decide⟩

/-- C9 as stated fails: a single video layer that carries the skip flag and is not
secure is counted in `yuvCount` and in `skipCount`, so the three counters add up to 2
for a list of one layer. -/
theorem getLayerStats_counters_exceed_length :
    ¬ ((getLayerStats samplePreds [mkLayer (some 1) 1]).yuvCount
        + (getLayerStats samplePreds [mkLayer (some 1) 1]).extCount
        + (getLayerStats samplePreds [mkLayer (some 1) 1]).skipCount
        ≤ (([mkLayer (some 1) 1].length : Nat) : Int)) := by
  decide

/-- C9, amended: a layer that is not a non-secure skip-flagged video layer changes at
most one of `yuvCount`, `extCount`, `skipCount`; a non-secure skip-flagged video layer
increments `yuvCount` and `skipCount` and leaves `extCount`; so for every layer list
`yuvCount + extCount + skipCount` is at most the number of layers plus the number of
non-secure skip-flagged video layers. -/
theorem getLayerStats_counters_bound (p : BufferPreds) (list : List hwc_layer_1_t) :
    (∀ (s : LayerStats) (i : Nat) (l : hwc_layer_1_t), isUnsecureSkipYuv p l = false →
      ((statsStep p s i l).yuvCount = s.yuvCount ∧ (statsStep p s i l).extCount = s.extCount)
      ∨ ((statsStep p s i l).yuvCount = s.yuvCount
          ∧ (statsStep p s i l).skipCount = s.skipCount)
      ∨ ((statsStep p s i l).extCount = s.extCount
          ∧ (statsStep p s i l).skipCount = s.skipCount)) ∧
    (∀ (s : LayerStats) (i : Nat) (l : hwc_layer_1_t), isUnsecureSkipYuv p l = true →
      (statsStep p s i l).yuvCount = int32 (s.yuvCount + 1)
      ∧ (statsStep p s i l).skipCount = int32 (s.skipCount + 1)
      ∧ (statsStep p s i l).extCount = s.extCount) ∧
    (getLayerStats p list).yuvCount + (getLayerStats p list).extCount
        + (getLayerStats p list).skipCount
      ≤ ((list.length + list.countP (isUnsecureSkipYuv p) : Nat) : Int) := by
  refine ⟨?_, ?_, ?_⟩
  · intro s i l h
    rw [statsStep_yuvCount, statsStep_extCount, statsStep_skipCount]
    unfold isUnsecureSkipYuv at h
    cases h1 : p.isYuvBuffer l.handle <;> cases h2 : p.isSkipLayer l <;>
      cases h3 : p.isSecureBuffer l.handle <;> cases h4 : p.isExtCC l.handle <;>
      cases h5 : p.isExtBlock l.handle <;> cases h6 : p.isExtOnly l.handle <;>
      simp_all [isClassExtBlock, isClassExtOnly, isUnsecureSkipYuv, isClassSkip]
  · intro s i l h
    rw [statsStep_yuvCount, statsStep_extCount, statsStep_skipCount]
    unfold isUnsecureSkipYuv at h
    cases h1 : p.isYuvBuffer l.handle <;> cases h2 : p.isSkipLayer l <;>
      cases h3 : p.isSecureBuffer l.handle <;>
      simp_all [isClassExtBlock, isClassExtOnly, isUnsecureSkipYuv, isClassSkip]
  · have hle := countP_classes_le p list
    rw [getLayerStats_yuvCount, getLayerStats_extCount, getLayerStats_skipCount]
    have a1 := int32_le_self (list.countP (fun l => p.isYuvBuffer l.handle) : Nat)
      (Int.natCast_nonneg _)
    have a2 := int32_le_self
      (list.countP (fun l => isClassExtBlock p l || isClassExtOnly p l) : Nat)
      (Int.natCast_nonneg _)
    have a3 := int32_le_self
      (list.countP (fun l => isUnsecureSkipYuv p l || isClassSkip p l) : Nat)
      (Int.natCast_nonneg _)
    have hle2 : ((list.countP (fun l => p.isYuvBuffer l.handle)
      + list.countP (fun l => isClassExtBlock p l || isClassExtOnly p l)
      + list.countP (fun l => isUnsecureSkipYuv p l || isClassSkip p l) : Nat) : Int)
      ≤ ((list.length + list.countP (isUnsecureSkipYuv p) : Nat) : Int) :=
      Int.ofNat_le.mpr hle
    push_cast at hle2 ⊢
    omega

/-- C9 amended, evaluated: a plain skip layer changes `skipCount` only, and a
non-secure skip-flagged video layer increments both `yuvCount` and `skipCount`. -/
theorem getLayerStats_counters_bound_witness :
    isUnsecureSkipYuv samplePreds (mkLayer (some 1) 1) = true ∧
      (statsStep samplePreds initStats 0 (mkLayer (some 1) 1)).yuvCount = int32 (0 + 1) ∧
      (statsStep samplePreds initStats 0 (mkLayer (some 1) 1)).skipCount = int32 (0 + 1) ∧
      (statsStep samplePreds initStats 0 (mkLayer (some 1) 1)).extCount = 0 :=
  ⟨by decide,
   (getLayerStats_counters_bound samplePreds []).2.1 initStats 0 (mkLayer (some 1) 1)
     (by decide)⟩

/-! ## `hwc_prepare` (claims C2, C6, C10) -/

theorem length_ne_zero_of_ne_nil {α : Type} (ls : List α) (h : ls ≠ []) : ls.length ≠ 0 := by
  cases ls with
  | nil => exact absurd rfl h
  | cons x xs => simp

theorem hwc_prepare_primary_ret (c : Collaborators) (ctx : hwc_context_t)
    (list : Option (List hwc_layer_1_t)) : (hwc_prepare_primary c ctx list).ret = 0 := by
  unfold hwc_prepare_primary
  cases list with
  | none => rfl
  | some ls =>
    simp only
    split_ifs <;> rfl

/-- C2: on a non-empty layer list `hwc_prepare_primary` calls the selectors in the order
video, mirror, MDP and stops at the first that claims: the calls it makes are exactly
one of three sequences; when `VideoOverlay::prepare` returns true (on the context and
list it is called with) the only calls are `setListStats` and the video selector, so
neither the mirror selector nor `MDPComp::configure` is called; and `overlayInUse` ends
true exactly when a selector that was called claimed. It returns 0. What it leaves is
fixed by what the selectors return when tried in that order: if the video selector
claims, the context and layers the video selector left, with `overlayInUse` set; if
it declines and the mirror selector claims, those of the mirror selector, with
`overlayInUse` set; if both decline, those of `MDPComp::configure`, with `overlayInUse`
equal to what it returned; the log records each selector called with what it
returned. -/
theorem hwc_prepare_primary_chain (c : Collaborators) (ctx : hwc_context_t)
    (ls : List hwc_layer_1_t) (hne : ls ≠ []) :
    ((hwc_prepare_primary c ctx (some ls)).log
        = [Event.setListStats HWC_DISPLAY_PRIMARY,
           Event.videoPrepare HWC_DISPLAY_PRIMARY true]
      ∨ (hwc_prepare_primary c ctx (some ls)).log
        = [Event.setListStats HWC_DISPLAY_PRIMARY,
           Event.videoPrepare HWC_DISPLAY_PRIMARY false, Event.mirrorPrepare true]
      ∨ ∃ b, (hwc_prepare_primary c ctx (some ls)).log
        = [Event.setListStats HWC_DISPLAY_PRIMARY,
           Event.videoPrepare HWC_DISPLAY_PRIMARY false, Event.mirrorPrepare false,
           Event.mdpConfigure b]) ∧
    ((c.VideoOverlay_prepare (c.setListStats ctx ls HWC_DISPLAY_PRIMARY).1
          (editLayers (c.setListStats ctx ls HWC_DISPLAY_PRIMARY).2 ls)
          HWC_DISPLAY_PRIMARY).1 = true →
      (hwc_prepare_primary c ctx (some ls)).log
        = [Event.setListStats HWC_DISPLAY_PRIMARY,
           Event.videoPrepare HWC_DISPLAY_PRIMARY true]) ∧
    (Event.videoPrepare HWC_DISPLAY_PRIMARY true ∈ (hwc_prepare_primary c ctx (some ls)).log →
      ∀ b, Event.mirrorPrepare b ∉ (hwc_prepare_primary c ctx (some ls)).log
        ∧ Event.mdpConfigure b ∉ (hwc_prepare_primary c ctx (some ls)).log) ∧
    ((hwc_prepare_primary c ctx (some ls)).ctx.overlayInUse = true ↔
      ∃ e ∈ (hwc_prepare_primary c ctx (some ls)).log,
        e.isSelector = true ∧ e.claimed = true) ∧
    (hwc_prepare_primary c ctx (some ls)).ret = 0 ∧
    ((videoCall c ctx ls).1 = true →
      hwc_prepare_primary c ctx (some ls)
        = { ret := 0,
            ctx := { (videoCall c ctx ls).2.1 with overlayInUse := true },
            list := some (layersAfterVideo c ctx ls),
            log := [Event.setListStats HWC_DISPLAY_PRIMARY,
                    Event.videoPrepare HWC_DISPLAY_PRIMARY true] }) ∧
    ((videoCall c ctx ls).1 = false → (mirrorCall c ctx ls).1 = true →
      hwc_prepare_primary c ctx (some ls)
        = { ret := 0,
            ctx := { (mirrorCall c ctx ls).2.1 with overlayInUse := true },
            list := some (layersAfterMirror c ctx ls),
            log := [Event.setListStats HWC_DISPLAY_PRIMARY,
                    Event.videoPrepare HWC_DISPLAY_PRIMARY false,
                    Event.mirrorPrepare true] }) ∧
    ((videoCall c ctx ls).1 = false → (mirrorCall c ctx ls).1 = false →
      hwc_prepare_primary c ctx (some ls)
        = { ret := 0,
            ctx := { (mdpCall c ctx ls).2.1 with overlayInUse := (mdpCall c ctx ls).1 },
            list := some (editLayers (mdpCall c ctx ls).2.2 (layersAfterMirror c ctx ls)),
            log := [Event.setListStats HWC_DISPLAY_PRIMARY,
                    Event.videoPrepare HWC_DISPLAY_PRIMARY false,
                    Event.mirrorPrepare false,
                    Event.mdpConfigure (mdpCall c ctx ls).1] }) := by
  have hlen : ls.length ≠ 0 := length_ne_zero_of_ne_nil ls hne
  refine ⟨?_, ?_, ?_, ?_, ?_, ?_, ?_, ?_⟩
  · unfold hwc_prepare_primary
    simp only [hlen, ne_eq, not_false_eq_true, if_true]
    split_ifs <;> simp [*]
  · unfold hwc_prepare_primary
    simp only [hlen, ne_eq, not_false_eq_true, if_true]
    split_ifs <;> simp [*]
  · unfold hwc_prepare_primary
    simp only [hlen, ne_eq, not_false_eq_true, if_true]
    split_ifs <;> simp [*]
  · unfold hwc_prepare_primary
    simp only [hlen, ne_eq, not_false_eq_true, if_true]
    split_ifs <;> simp [*, Event.isSelector, Event.claimed]
  · exact hwc_prepare_primary_ret c ctx (some ls)
  · intro hv
    unfold videoCall statsCall at hv
    unfold hwc_prepare_primary layersAfterVideo videoCall statsCall
    simp only [hlen, ne_eq, not_false_eq_true, if_true, hv, List.cons_append,
      List.nil_append]
  · intro hv hm
    unfold mirrorCall layersAfterVideo videoCall statsCall at hm
    unfold videoCall statsCall at hv
    unfold hwc_prepare_primary layersAfterMirror mirrorCall layersAfterVideo videoCall
      statsCall
    simp only [hlen, ne_eq, not_false_eq_true, if_true, hv, hm, List.cons_append,
      List.nil_append, Bool.false_eq_true, if_false]
  · intro hv hm
    unfold mirrorCall layersAfterVideo videoCall statsCall at hm
    unfold videoCall statsCall at hv
    unfold hwc_prepare_primary mdpCall layersAfterMirror mirrorCall layersAfterVideo
      videoCall statsCall
    simp only [hlen, ne_eq, not_false_eq_true, if_true, hv, hm, List.cons_append,
      List.nil_append, Bool.false_eq_true, if_false]
    split_ifs with h3
    · simp [h3]
    · simp [h3]

/-- C2, evaluated: with a video selector that claims (and a mirror selector and an MDP
selector that would claim too), only the video selector is called and `overlayInUse`
ends true; with video and mirror selectors that decline and an MDP selector that
claims, all three are called in order (the device state collects their marks 1, 10,
100) and `overlayInUse` ends true. -/
theorem hwc_prepare_primary_chain_witness :
    [mkLayer (some 1) 0, fbTarget (some 7)] ≠ [] ∧
      (hwc_prepare_primary videoCollaborators sampleCtx
          (some [mkLayer (some 1) 0, fbTarget (some 7)])).log
        = [Event.setListStats HWC_DISPLAY_PRIMARY,
           Event.videoPrepare HWC_DISPLAY_PRIMARY true] ∧
      (hwc_prepare_primary videoCollaborators sampleCtx
          (some [mkLayer (some 1) 0, fbTarget (some 7)])).ctx.overlayInUse = true ∧
      (hwc_prepare_primary mdpCollaborators sampleCtx
          (some [mkLayer (some 1) 0, fbTarget (some 7)])).log
        = [Event.setListStats HWC_DISPLAY_PRIMARY,
           Event.videoPrepare HWC_DISPLAY_PRIMARY false, Event.mirrorPrepare false,
           Event.mdpConfigure true] ∧
      (hwc_prepare_primary mdpCollaborators sampleCtx
          (some [mkLayer (some 1) 0, fbTarget (some 7)])).ctx.devices = 111 ∧
      (hwc_prepare_primary mdpCollaborators sampleCtx
          (some [mkLayer (some 1) 0, fbTarget (some 7)])).ctx.overlayInUse = true :=
  ⟨by decide,
   (hwc_prepare_primary_chain videoCollaborators sampleCtx
      [mkLayer (some 1) 0, fbTarget (some 7)] (by decide)).2.1 (by decide),
   by decide, by decide, by decide, by decide⟩

theorem foldl_setYuvIndex (n : Nat) (f : Nat → ListStats) (i : Nat) :
    ((List.range n).foldl setYuvIndex f) i
      = if i < n then { f i with yuvIndex := -1 } else f i := by
  induction n with
  | zero => simp
  | succ n ih =>
    rw [List.range_succ, List.foldl_append]
    simp only [List.foldl_cons, List.foldl_nil, setYuvIndex]
    by_cases h : i = n
    · subst h
      simp [ih]
    · simp only [h, if_false, ih]
      by_cases h2 : i < n
      · have : i < n + 1 := by omega
        simp [h2, this]
      · have : ¬ i < n + 1 := by omega
        simp [h2, this]

theorem reset_listStats (ctx : hwc_context_t) (numDisplays : Nat) (i : Nat) :
    (reset ctx numDisplays).listStats i
      = { yuvIndex := if i < (int32 numDisplays).toNat then -1 else 0, rest := 0 } := by
  unfold reset
  simp only [foldl_setYuvIndex, zeroListStats]
  split_ifs <;> rfl

/-- C10: when the securing flag is set, for every display array (of any length)
`hwc_prepare` returns 0, leaves `overlayInUse` false and `listStats` as `reset` leaves it
(all zero, `yuvIndex` -1 below `numDisplays`), calls no collaborator (neither the
classifier `setListStats` nor a selector), and hands back the display array, hence every
layer and its composition type, unchanged; the other fields of the context stay. -/
theorem hwc_prepare_securing (c : Collaborators) (ctx : hwc_context_t)
    (displays : List (Option (List hwc_layer_1_t))) (h : ctx.mSecuring = true) :
    (hwc_prepare c ctx displays).ret = 0 ∧
    (hwc_prepare c ctx displays).ctx.overlayInUse = false ∧
    (∀ i, (hwc_prepare c ctx displays).ctx.listStats i
      = { yuvIndex := if i < (int32 displays.length).toNat then -1 else 0, rest := 0 }) ∧
    (hwc_prepare c ctx displays).log = [] ∧
    (hwc_prepare c ctx displays).displays = displays ∧
    (hwc_prepare c ctx displays).ctx.mSecuring = true ∧
    (hwc_prepare c ctx displays).ctx.dpyAttr = ctx.dpyAttr ∧
    (hwc_prepare c ctx displays).ctx.devices = ctx.devices := by
  have hs : (reset { ctx with overlayInUse := false } displays.length).mSecuring = true := h
  have hr : hwc_prepare c ctx displays
      = { ret := 0, ctx := reset { ctx with overlayInUse := false } displays.length,
          displays := displays, log := [] } := by
    unfold hwc_prepare
    simp only [hs, beq_self_eq_true, if_true]
  rw [hr]
  exact ⟨rfl, rfl, fun i => reset_listStats _ _ i, rfl, rfl, h, rfl, rfl⟩

/-- C10, evaluated: with the securing flag set and selectors that would all claim, a
frame with a video layer on the primary display and a list at an unknown index is left
alone: status 0, no call, `overlayInUse` false. -/
theorem hwc_prepare_securing_witness :
    securingCtx.mSecuring = true ∧
      (hwc_prepare videoCollaborators securingCtx
        [some [mkLayer (some 1) 0, fbTarget (some 7)], none, some [fbTarget (some 9)]]).ret
        = 0 ∧
      (hwc_prepare videoCollaborators securingCtx
        [some [mkLayer (some 1) 0, fbTarget (some 7)], none,
         some [fbTarget (some 9)]]).ctx.overlayInUse = false ∧
      (hwc_prepare videoCollaborators securingCtx
        [some [mkLayer (some 1) 0, fbTarget (some 7)], none, some [fbTarget (some 9)]]).log
        = [] :=
  ⟨rfl,
   (hwc_prepare_securing videoCollaborators securingCtx
      [some [mkLayer (some 1) 0, fbTarget (some 7)], none, some [fbTarget (some 9)]] rfl).1,
   (hwc_prepare_securing videoCollaborators securingCtx
      [some [mkLayer (some 1) 0, fbTarget (some 7)], none, some [fbTarget (some 9)]] rfl).2.1,
   (hwc_prepare_securing videoCollaborators securingCtx
      [some [mkLayer (some 1) 0, fbTarget (some 7)], none,
       some [fbTarget (some 9)]] rfl).2.2.2.1⟩

theorem prepareDisplay_ret_unknown (c : Collaborators) (i : Nat) (hi : 2 ≤ i) (ret : Int)
    (ctx : hwc_context_t) (list : Option (List hwc_layer_1_t)) :
    (prepareDisplay c i ret ctx list).ret = if passesGuard list then -EINVAL else ret := by
  have h0 : i ≠ HWC_DISPLAY_PRIMARY := by unfold HWC_DISPLAY_PRIMARY; omega
  have h1 : i ≠ HWC_DISPLAY_EXTERNAL := by unfold HWC_DISPLAY_EXTERNAL; omega
  unfold prepareDisplay passesGuard
  cases list with
  | none => simp
  | some ls =>
    simp only [h0, h1, if_false]
    by_cases hl : ls.length ≠ 0
    · by_cases hh : (layerAt ls (ls.length - 1)).handle ≠ none
      · simp [hl, hh]
      · simp [hl, hh]
    · simp [hl]

theorem prepareDisplay_ret_known (c : Collaborators) (i : Nat) (hi : i < 2)
    (ctx : hwc_context_t) (list : Option (List hwc_layer_1_t)) :
    (prepareDisplay c i 0 ctx list).ret = 0 := by
  unfold prepareDisplay
  cases list with
  | none => rfl
  | some ls =>
    simp only
    split_ifs
    · exact hwc_prepare_primary_ret c ctx (some ls)
    · rfl
    · exfalso
      unfold HWC_DISPLAY_PRIMARY HWC_DISPLAY_EXTERNAL at *
      omega
    · rfl
    · rfl

theorem prepareLoop_ret_unknown (c : Collaborators)
    (ds : List (Option (List hwc_layer_1_t))) :
    ∀ (i : Nat) (ret : Int) (ctx : hwc_context_t), 2 ≤ i →
      (ret = 0 ∨ ret = -EINVAL) →
      (prepareLoop c i ret ctx ds).ret
        = if ds.any passesGuard then -EINVAL else ret := by
  induction ds with
  | nil => intro i ret ctx _ _; simp [prepareLoop]
  | cons d ds ih =>
    intro i ret ctx hi hret
    simp only [prepareLoop, List.any_cons]
    have hd := prepareDisplay_ret_unknown c i hi ret ctx d
    have hret2 : (prepareDisplay c i ret ctx d).ret = 0
        ∨ (prepareDisplay c i ret ctx d).ret = -EINVAL := by
      rw [hd]
      split_ifs
      · exact Or.inr rfl
      · exact hret
    rw [ih (i + 1) _ _ (by omega) hret2, hd]
    by_cases h1 : passesGuard d = true <;> by_cases h2 : ds.any passesGuard = true <;>
      simp [h1, h2]

theorem prepareLoop_ret (c : Collaborators) (ctx : hwc_context_t)
    (ds : List (Option (List hwc_layer_1_t))) :
    (prepareLoop c 0 0 ctx ds).ret
      = if (ds.drop 2).any passesGuard then -EINVAL else 0 := by
  cases ds with
  | nil => simp [prepareLoop]
  | cons d0 ds =>
    cases ds with
    | nil =>
      simp [prepareLoop, prepareDisplay_ret_known c 0 (by omega) ctx d0]
    | cons d1 ds =>
      simp only [prepareLoop, List.drop_succ_cons, List.drop_zero]
      rw [prepareLoop_ret_unknown c ds 2 _ _ (by omega)]
      · rw [prepareDisplay_ret_known c 0 (by omega) ctx d0,
          prepareDisplay_ret_known c 1 (by omega) _ d1]
      · left
        rw [prepareDisplay_ret_known c 0 (by omega) ctx d0,
          prepareDisplay_ret_known c 1 (by omega) _ d1]

/-- C6 as stated fails: with the securing flag clear and three displays, `hwc_prepare`
returns 0 when the list at the unknown index 2 is `NULL`, when it is empty, and when
the handle of its last layer is `NULL`. -/
theorem hwc_prepare_unknown_index_returns_zero :
    sampleCtx.mSecuring = false ∧
      (hwc_prepare idleCollaborators sampleCtx
        [some [fbTarget (some 7)], none, none]).ret ≠ -EINVAL ∧
      (hwc_prepare idleCollaborators sampleCtx
        [some [fbTarget (some 7)], none, some []]).ret ≠ -EINVAL ∧
      (hwc_prepare idleCollaborators sampleCtx
        [some [fbTarget (some 7)], none, some [fbTarget none]]).ret ≠ -EINVAL := by
  decide

/-- C6, amended: with the securing flag clear, `hwc_prepare` returns `-EINVAL` exactly
when some display index other than primary and external (an index of 2 or more) has a
list that passes the guard of the loop (not `NULL`, not empty, last layer's handle not
`NULL`), whatever the other lists are; otherwise it returns 0. -/
theorem hwc_prepare_ret (c : Collaborators) (ctx : hwc_context_t)
    (displays : List (Option (List hwc_layer_1_t))) (h : ctx.mSecuring = false) :
    ((hwc_prepare c ctx displays).ret = -EINVAL ↔
      ∃ i list, 2 ≤ i ∧ displays[i]? = some list ∧ passesGuard list = true) ∧
    ((hwc_prepare c ctx displays).ret = -EINVAL ∨ (hwc_prepare c ctx displays).ret = 0) := by
  have hs : (reset { ctx with overlayInUse := false } displays.length).mSecuring = false := h
  have hret : (hwc_prepare c ctx displays).ret
      = if (displays.drop 2).any passesGuard then -EINVAL else 0 := by
    unfold hwc_prepare
    simp only [hs]
    exact prepareLoop_ret c _ displays
  have hany : (displays.drop 2).any passesGuard = true ↔
      ∃ i list, 2 ≤ i ∧ displays[i]? = some list ∧ passesGuard list = true := by
    rw [List.any_eq_true]
    constructor
    · rintro ⟨x, hx, hp⟩
      obtain ⟨n, hn⟩ := List.getElem?_of_mem hx
      rw [List.getElem?_drop] at hn
      exact ⟨2 + n, x, by omega, hn, hp⟩
    · rintro ⟨i, x, hi, hx, hp⟩
      refine ⟨x, ?_, hp⟩
      apply List.getElem?_mem (n := i - 2)
      rw [List.getElem?_drop]
      have : 2 + (i - 2) = i := by omega
      rw [this]
      exact hx
  refine ⟨?_, ?_⟩
  · rw [← hany, hret]
    cases hb : (displays.drop 2).any passesGuard <;> simp [EINVAL]
  · rw [hret]
    split_ifs
    · exact Or.inl rfl
    · exact Or.inr rfl

/-- C6 amended, evaluated: a usable list at index 2 gives `-EINVAL`, also when a `NULL`
list follows it. -/
theorem hwc_prepare_ret_witness :
    sampleCtx.mSecuring = false ∧
      (hwc_prepare idleCollaborators sampleCtx
        [some [fbTarget (some 7)], none, some [fbTarget (some 9)], none]).ret = -EINVAL :=
  ⟨rfl,
   (hwc_prepare_ret idleCollaborators sampleCtx
      [some [fbTarget (some 7)], none, some [fbTarget (some 9)], none] rfl).1.mpr
        ⟨2, some [fbTarget (some 9)], by decide, by decide, by decide⟩⟩

/-! ## `hwc_set` (claims C4, C5) -/

theorem length_editFrom (e : LayerEdit) (ls : List hwc_layer_1_t) :
    ∀ (k : Nat), (editFrom e k ls).length = ls.length := by
  induction ls with
  | nil => intro k; rfl
  | cons l ls ih => intro k; simp [editFrom, ih]

theorem length_editLayers (e : LayerEdit) (ls : List hwc_layer_1_t) :
    (editLayers e ls).length = ls.length :=
  length_editFrom e ls 0

theorem getElem?_editFrom (e : LayerEdit) (ls : List hwc_layer_1_t) :
    ∀ (k j : Nat), (editFrom e k ls)[j]? = (ls[j]?).map (e (k + j)) := by
  induction ls with
  | nil => intro k j; simp [editFrom]
  | cons l ls ih =>
    intro k j
    cases j with
    | zero => simp [editFrom]
    | succ j =>
      simp only [editFrom, List.getElem?_cons_succ, ih]
      have : k + 1 + j = k + (j + 1) := by omega
      rw [this]

theorem layerAt_editLayers (e : LayerEdit) (ls : List hwc_layer_1_t) (j : Nat)
    (hj : j < ls.length) : layerAt (editLayers e ls) j = e j (layerAt ls j) := by
  unfold layerAt editLayers
  simp only [List.getD_eq_getElem?_getD, getElem?_editFrom, Nat.zero_add]
  rw [List.getElem?_eq_getElem hj]
  rfl

theorem layerAt_set (ls : List hwc_layer_1_t) (j : Nat) (x : hwc_layer_1_t)
    (hj : j < ls.length) : layerAt (ls.set j x) j = x := by
  unfold layerAt
  simp [List.getD_eq_getElem?_getD, List.getElem?_set_self hj]

/-- An edit that keeps targets keeps the composition type and handle at every index. -/
theorem layerAt_editLayers_target (e : LayerEdit) (he : KeepsTarget e)
    (ls : List hwc_layer_1_t) (j : Nat) (hj : j < ls.length) :
    SameTarget (layerAt ls j) (layerAt (editLayers e ls) j) := by
  rw [layerAt_editLayers e ls j hj]
  exact he j (layerAt ls j)

theorem setDisplay_ret (c : Collaborators) (i : Nat) (ret : Int) (ctx : hwc_context_t)
    (list : Option (List hwc_layer_1_t)) : (setDisplay c i ret ctx list).ret = -EINVAL :=
  rfl

theorem setLoop_ret (c : Collaborators) (ds : List (Option (List hwc_layer_1_t))) :
    ∀ (i : Nat) (ret : Int) (ctx : hwc_context_t),
      (setLoop c i ret ctx ds).ret = if ds = [] then ret else -EINVAL := by
  induction ds with
  | nil => intro i ret ctx; simp [setLoop]
  | cons d ds ih =>
    intro i ret ctx
    simp only [setLoop, ih, setDisplay_ret]
    by_cases hd : ds = [] <;> simp [hd]

/-- C5, what the code does: for every non-empty display array `hwc_set` returns
`-EINVAL`, not 0, whatever the collaborators do, because no case of its `switch` ends
in `break`: the primary case runs `hwc_set_primary`, then `hwc_set_external` on the same
list, then the `default` assignment. -/
theorem hwc_set_ret (c : Collaborators) (ctx : hwc_context_t)
    (displays : List (Option (List hwc_layer_1_t))) (h : displays ≠ []) :
    (hwc_set c ctx displays).ret = -EINVAL ∧
    ∀ (ret : Int) (x : hwc_context_t) (list : Option (List hwc_layer_1_t)),
      setDisplay c HWC_DISPLAY_PRIMARY ret x list
        = { ret := -EINVAL,
            ctx := (hwc_set_external c (hwc_set_primary c x list).ctx
              (hwc_set_primary c x list).list).ctx,
            list := (hwc_set_external c (hwc_set_primary c x list).ctx
              (hwc_set_primary c x list).list).list,
            log := (hwc_set_primary c x list).log
              ++ (hwc_set_external c (hwc_set_primary c x list).ctx
                (hwc_set_primary c x list).list).log } := by
  refine ⟨?_, ?_⟩
  · unfold hwc_set
    simp only [setLoop_ret, h, if_false]
  · intro ret x list
    simp [setDisplay]

/-- C5 at the failing input: one display, the primary one, with a framebuffer-target
layer: `hwc_set` returns -22. -/
theorem hwc_set_ret_witness :
    [some [fbTarget (some 7)]] ≠ ([] : List (Option (List hwc_layer_1_t))) ∧
      (hwc_set idleCollaborators sampleCtx [some [fbTarget (some 7)]]).ret = -22 :=
  ⟨by decide, (hwc_set_ret idleCollaborators sampleCtx [some [fbTarget (some 7)]]
      (by decide)).1⟩

theorem SameTarget.trans {a b d : hwc_layer_1_t} (h1 : SameTarget a b) (h2 : SameTarget b d) :
    SameTarget a d :=
  ⟨h2.1.trans h1.1, h2.2.trans h1.2⟩

theorem SameTarget.refl (a : hwc_layer_1_t) : SameTarget a a := ⟨rfl, rfl⟩

/-- When the draw functions keep composition types and handles, `hwc_set_primary` on a
non-empty list whose last layer is the framebuffer target ends with the post of that
layer's handle. -/
theorem hwc_set_primary_log (c : Collaborators) (ctx : hwc_context_t)
    (ls : List hwc_layer_1_t) (hne : ls ≠ [])
    (hsync : ∀ x l d, KeepsTarget (c.hwc_sync_dpy x l d).2)
    (hvideo : ∀ x l d, KeepsTarget (c.VideoOverlay_draw x l d).2)
    (hmdp : ∀ x l, KeepsTarget (c.MDPComp_draw x l).2)
    (hmirror : ∀ x l, SameTarget l (c.UIMirrorOverlay_draw x l).2)
    (hfb : (layerAt ls (ls.length - 1)).compositionType = HWC_FRAMEBUFFER_TARGET) :
    ∃ pre, (hwc_set_primary c ctx (some ls)).log
      = pre ++ [Event.fbPost (layerAt ls (ls.length - 1)).handle] := by
  have hlen : ls.length ≠ 0 := length_ne_zero_of_ne_nil ls hne
  have hlast : ls.length - 1 < ls.length := by omega
  unfold hwc_set_primary
  simp only [hlen, ne_eq, not_false_eq_true, if_true, length_editLayers]
  generalize c.mFbDev_compositionComplete ctx = ctx1
  have k2 := hsync ctx1 ls HWC_DISPLAY_PRIMARY
  generalize c.hwc_sync_dpy ctx1 ls HWC_DISPLAY_PRIMARY = r2 at k2 ⊢
  have hl2 : (editLayers r2.2 ls).length = ls.length := length_editLayers _ _
  have t2 := layerAt_editLayers_target r2.2 k2 ls (ls.length - 1) hlast
  generalize editLayers r2.2 ls = ls2 at hl2 t2 ⊢
  have k3 := hvideo r2.1 ls2 HWC_DISPLAY_PRIMARY
  generalize c.VideoOverlay_draw r2.1 ls2 HWC_DISPLAY_PRIMARY = r3 at k3 ⊢
  have hl3 : (editLayers r3.2 ls2).length = ls.length := by rw [length_editLayers, hl2]
  have t3 := layerAt_editLayers_target r3.2 k3 ls2 (ls.length - 1) (by omega)
  generalize editLayers r3.2 ls2 = ls3 at hl3 t3 ⊢
  have k4 := hmdp r3.1 ls3
  generalize c.MDPComp_draw r3.1 ls3 = r4 at k4 ⊢
  have hl4 : (editLayers r4.2 ls3).length = ls.length := by rw [length_editLayers, hl3]
  have t4 := layerAt_editLayers_target r4.2 k4 ls3 (ls.length - 1) (by omega)
  generalize editLayers r4.2 ls3 = ls4 at hl4 t4 ⊢
  have t04 : SameTarget (layerAt ls (ls.length - 1)) (layerAt ls4 (ls.length - 1)) :=
    (t2.trans t3).trans t4
  have k5 : SameTarget (layerAt ls4 (ls.length - 1))
      (if (r4.1.dpyAttr HWC_DISPLAY_EXTERNAL).isActive = true then
          c.UIMirrorOverlay_draw r4.1 (layerAt ls4 (ls.length - 1))
        else (r4.1, layerAt ls4 (ls.length - 1))).2 := by
    split_ifs
    · exact hmirror r4.1 (layerAt ls4 (ls.length - 1))
    · exact SameTarget.refl _
  generalize (if (r4.1.dpyAttr HWC_DISPLAY_EXTERNAL).isActive = true then
          c.UIMirrorOverlay_draw r4.1 (layerAt ls4 (ls.length - 1))
        else (r4.1, layerAt ls4 (ls.length - 1))) = r5 at k5 ⊢
  have t5 : SameTarget (layerAt ls (ls.length - 1)) r5.2 := t04.trans k5
  rw [layerAt_set ls4 (ls.length - 1) r5.2 (by omega), if_pos (t5.1.trans hfb), t5.2]
  exact ⟨_, rfl⟩


/-- Under the same conditions the context `hwc_set_primary` leaves is the one
`mFbDev->post` returns when called with the handle of the framebuffer target. -/
theorem hwc_set_primary_ctx (c : Collaborators) (ctx : hwc_context_t)
    (ls : List hwc_layer_1_t) (hne : ls ≠ [])
    (hsync : ∀ x l d, KeepsTarget (c.hwc_sync_dpy x l d).2)
    (hvideo : ∀ x l d, KeepsTarget (c.VideoOverlay_draw x l d).2)
    (hmdp : ∀ x l, KeepsTarget (c.MDPComp_draw x l).2)
    (hmirror : ∀ x l, SameTarget l (c.UIMirrorOverlay_draw x l).2)
    (hfb : (layerAt ls (ls.length - 1)).compositionType = HWC_FRAMEBUFFER_TARGET) :
    ∃ x, (hwc_set_primary c ctx (some ls)).ctx
      = c.mFbDev_post x (layerAt ls (ls.length - 1)).handle := by
  have hlen : ls.length ≠ 0 := length_ne_zero_of_ne_nil ls hne
  have hlast : ls.length - 1 < ls.length := by omega
  unfold hwc_set_primary
  simp only [hlen, ne_eq, not_false_eq_true, if_true, length_editLayers]
  generalize c.mFbDev_compositionComplete ctx = ctx1
  have k2 := hsync ctx1 ls HWC_DISPLAY_PRIMARY
  generalize c.hwc_sync_dpy ctx1 ls HWC_DISPLAY_PRIMARY = r2 at k2 ⊢
  have hl2 : (editLayers r2.2 ls).length = ls.length := length_editLayers _ _
  have t2 := layerAt_editLayers_target r2.2 k2 ls (ls.length - 1) hlast
  generalize editLayers r2.2 ls = ls2 at hl2 t2 ⊢
  have k3 := hvideo r2.1 ls2 HWC_DISPLAY_PRIMARY
  generalize c.VideoOverlay_draw r2.1 ls2 HWC_DISPLAY_PRIMARY = r3 at k3 ⊢
  have hl3 : (editLayers r3.2 ls2).length = ls.length := by rw [length_editLayers, hl2]
  have t3 := layerAt_editLayers_target r3.2 k3 ls2 (ls.length - 1) (by omega)
  generalize editLayers r3.2 ls2 = ls3 at hl3 t3 ⊢
  have k4 := hmdp r3.1 ls3
  generalize c.MDPComp_draw r3.1 ls3 = r4 at k4 ⊢
  have hl4 : (editLayers r4.2 ls3).length = ls.length := by rw [length_editLayers, hl3]
  have t4 := layerAt_editLayers_target r4.2 k4 ls3 (ls.length - 1) (by omega)
  generalize editLayers r4.2 ls3 = ls4 at hl4 t4 ⊢
  have t04 : SameTarget (layerAt ls (ls.length - 1)) (layerAt ls4 (ls.length - 1)) :=
    (t2.trans t3).trans t4
  have k5 : SameTarget (layerAt ls4 (ls.length - 1))
      (if (r4.1.dpyAttr HWC_DISPLAY_EXTERNAL).isActive = true then
          c.UIMirrorOverlay_draw r4.1 (layerAt ls4 (ls.length - 1))
        else (r4.1, layerAt ls4 (ls.length - 1))).2 := by
    split_ifs
    · exact hmirror r4.1 (layerAt ls4 (ls.length - 1))
    · exact SameTarget.refl _
  generalize (if (r4.1.dpyAttr HWC_DISPLAY_EXTERNAL).isActive = true then
          c.UIMirrorOverlay_draw r4.1 (layerAt ls4 (ls.length - 1))
        else (r4.1, layerAt ls4 (ls.length - 1))) = r5 at k5 ⊢
  have t5 : SameTarget (layerAt ls (ls.length - 1)) r5.2 := t04.trans k5
  rw [layerAt_set ls4 (ls.length - 1) r5.2 (by omega), if_pos (t5.1.trans hfb), t5.2]
  exact ⟨_, rfl⟩

theorem setDisplay_ctx_other (c : Collaborators) (i : Nat) (hi : i ≠ HWC_DISPLAY_PRIMARY)
    (ret : Int) (x : hwc_context_t) (list : Option (List hwc_layer_1_t)) :
    (setDisplay c i ret x list).ctx = x := by
  simp only [setDisplay, hi, if_false, false_or, hwc_set_external]
  split_ifs <;> simp

theorem setLoop_ctx_other (c : Collaborators) (ds : List (Option (List hwc_layer_1_t))) :
    ∀ (i : Nat) (ret : Int) (x : hwc_context_t), i ≠ HWC_DISPLAY_PRIMARY →
      (setLoop c i ret x ds).ctx = x := by
  induction ds with
  | nil => intro i ret x _; rfl
  | cons d ds ih =>
    intro i ret x hi
    simp only [setLoop]
    rw [ih (i + 1) _ _ (by unfold HWC_DISPLAY_PRIMARY; omega), setDisplay_ctx_other c i hi]

theorem closeStep_sameTarget (env : SyncEnv) (releaseFd : Int) (i : Nat)
    (l : hwc_layer_1_t) : SameTarget l (closeStep env releaseFd i l).1 := by
  unfold closeStep SameTarget
  split_ifs <;> exact ⟨rfl, rfl⟩

theorem closeLoop_eq_editFrom (env : SyncEnv) (releaseFd : Int) (ls : List hwc_layer_1_t) :
    ∀ (i : Nat), (closeLoop env releaseFd i ls).1
      = editFrom (fun j l => (closeStep env releaseFd j l).1) i ls := by
  induction ls with
  | nil => intro i; rfl
  | cons l ls ih => intro i; simp [closeLoop, editFrom, ih]

/-- The edit `hwc_sync` makes keeps composition types and buffer handles: it only
touches the two fence fields. -/
theorem syncEdit_keepsTarget (env : SyncEnv) (list : List hwc_layer_1_t) :
    KeepsTarget (syncEdit env list) := by
  intro i l
  unfold syncEdit
  split_ifs
  · exact closeStep_sameTarget env _ i l
  · exact ⟨rfl, rfl⟩

/-- The layers `hwc_sync(list)` leaves are the layers of `list` under `syncEdit`. -/
theorem hwc_sync_list (env : SyncEnv) (list : List hwc_layer_1_t) (r : SyncResult)
    (h : hwc_sync env list = some r) : r.list = editLayers (syncEdit env list) list := by
  have hid : ∀ (k : Nat) (ls : List hwc_layer_1_t),
      editFrom (fun _ l => l) k ls = ls := by
    intro k ls
    induction ls generalizing k with
    | nil => rfl
    | cons l ls ih => simp [editFrom, ih]
  unfold hwc_sync at h
  unfold syncEdit editLayers
  by_cases h1 : env.useFenceSync = true
  · by_cases h2 : (collectAcquireFds list).length > acquireFdCapacity
    · simp [h1, h2] at h
    · by_cases h3 : (collectAcquireFds list).length ≠ 0
      · by_cases h4 : env.openFb < 0
        · simp only [h1, h2, h3, h4, if_true, if_false, ne_eq, not_false_eq_true,
            Option.some.injEq] at h
          subst h
          simp [h4, hid]
        · simp only [h1, h2, h3, h4, if_true, if_false, ne_eq, not_false_eq_true,
            Option.some.injEq] at h
          subst h
          simp only [h1, h3, h4, ne_eq, not_false_eq_true, and_self, if_true]
          exact closeLoop_eq_editFrom env _ list 0
      · simp only [h1, h2, h3, if_true, if_false, Option.some.injEq] at h
        subst h
        simp [h3, hid]
  · simp only [h1, Bool.false_eq_true, if_false, Option.some.injEq] at h
    subst h
    simp [h1, hid]

/-- C4 as stated fails for the external display: with both displays active and a
non-empty list at each index whose last layer is the framebuffer target, `hwc_set` posts
the handle of the primary list's target (7) and never the handle of the external list's
target (42). -/
theorem hwc_set_external_target_not_posted :
    (layerAt [fbTarget (some 42)] ([fbTarget (some 42)].length - 1)).compositionType
        = HWC_FRAMEBUFFER_TARGET ∧
      (hwc_set idleCollaborators externalActiveCtx
          [some [mkLayer (some 1) 1, fbTarget (some 7)], some [fbTarget (some 42)]]).log
        = [Event.overlayClosed, Event.compositionComplete, Event.sync HWC_DISPLAY_PRIMARY,
           Event.videoDraw HWC_DISPLAY_PRIMARY, Event.mdpDraw, Event.mirrorDraw,
           Event.extPost, Event.fbPost (some 7)] ∧
      Event.fbPost (some 42) ∉
        (hwc_set idleCollaborators externalActiveCtx
          [some [mkLayer (some 1) 1, fbTarget (some 7)], some [fbTarget (some 42)]]).log := by
  decide

/-- C4, amended to the primary display: when the list at the primary index is not
empty and its last layer has composition type `HWC_FRAMEBUFFER_TARGET`, `hwc_set` posts
that layer's buffer handle to the framebuffer device, whatever the flags of the layers,
provided the draw functions called before the post leave composition types and handles
alone; for every other display index `hwc_set` makes no call at all, so nothing is
posted for the external list. The post is the last thing done to the context: the
context `hwc_set` leaves is what `mFbDev->post` returned for that handle. -/
theorem hwc_set_posts_primary_target (c : Collaborators) (ctx : hwc_context_t)
    (ls : List hwc_layer_1_t) (rest : List (Option (List hwc_layer_1_t)))
    (hne : ls ≠ [])
    (hsync : ∀ x l d, KeepsTarget (c.hwc_sync_dpy x l d).2)
    (hvideo : ∀ x l d, KeepsTarget (c.VideoOverlay_draw x l d).2)
    (hmdp : ∀ x l, KeepsTarget (c.MDPComp_draw x l).2)
    (hmirror : ∀ x l, SameTarget l (c.UIMirrorOverlay_draw x l).2)
    (hfb : (layerAt ls (ls.length - 1)).compositionType = HWC_FRAMEBUFFER_TARGET) :
    Event.fbPost (layerAt ls (ls.length - 1)).handle ∈ (hwc_set c ctx (some ls :: rest)).log ∧
    (∀ (i : Nat) (ret : Int) (x : hwc_context_t) (list : Option (List hwc_layer_1_t)),
      i ≠ HWC_DISPLAY_PRIMARY →
        (setDisplay c i ret x list).log = [] ∧ (setDisplay c i ret x list).ctx = x
          ∧ (setDisplay c i ret x list).list = list) ∧
    (∃ x, (hwc_set c ctx (some ls :: rest)).ctx
      = c.mFbDev_post x (layerAt ls (ls.length - 1)).handle) := by
  refine ⟨?_, ?_, ?_⟩
  · unfold hwc_set
    simp only [setLoop]
    generalize (if (!ctx.overlayInUse) = true then c.mOverlay_setState_closed ctx else ctx)
      = ctx0
    obtain ⟨pre, hpre⟩ := hwc_set_primary_log c ctx0 ls hne hsync hvideo hmdp hmirror hfb
    have h1 : (setDisplay c 0 0 ctx0 (some ls)).log
        = (hwc_set_primary c ctx0 (some ls)).log := by
      simp [setDisplay, hwc_set_external, HWC_DISPLAY_PRIMARY]
    rw [h1, hpre]
    simp
  · intro i ret x list hi
    simp only [setDisplay, hi, if_false, false_or, hwc_set_external]
    split_ifs <;> simp
  · unfold hwc_set
    simp only [setLoop]
    generalize (if (!ctx.overlayInUse) = true then c.mOverlay_setState_closed ctx else ctx)
      = ctx0
    obtain ⟨x, hx⟩ := hwc_set_primary_ctx c ctx0 ls hne hsync hvideo hmdp hmirror hfb
    have h1 : (setDisplay c 0 0 ctx0 (some ls)).ctx
        = (hwc_set_primary c ctx0 (some ls)).ctx := by
      simp [setDisplay, hwc_set_external, HWC_DISPLAY_PRIMARY]
    rw [setLoop_ctx_other c rest (0 + 1) _ _ (by unfold HWC_DISPLAY_PRIMARY; omega), h1, hx]
    exact ⟨x, rfl⟩

/-- C4 amended, evaluated: with the `hwc_sync` of `hwc_utils.cpp` as the sync function
(every system call succeeding), an overlay layer with an acquire fence and a
skip-flagged layer, the handle 7 of the framebuffer target is posted. -/
theorem hwc_set_posts_primary_target_witness :
    ([overlayLayer 5, mkLayer (some 2) 1, fbTarget (some 7)] ≠ []) ∧
    (∀ x l d, KeepsTarget ((syncCollaborators envAllSucceed).hwc_sync_dpy x l d).2) ∧
    (∀ x l d, KeepsTarget ((syncCollaborators envAllSucceed).VideoOverlay_draw x l d).2) ∧
    (∀ x l, KeepsTarget ((syncCollaborators envAllSucceed).MDPComp_draw x l).2) ∧
    (∀ x l, SameTarget l ((syncCollaborators envAllSucceed).UIMirrorOverlay_draw x l).2) ∧
    (layerAt [overlayLayer 5, mkLayer (some 2) 1, fbTarget (some 7)] 2).compositionType
      = HWC_FRAMEBUFFER_TARGET ∧
    Event.fbPost (some 7) ∈
      (hwc_set (syncCollaborators envAllSucceed) externalActiveCtx
        [some [overlayLayer 5, mkLayer (some 2) 1, fbTarget (some 7)], none]).log :=
  ⟨by decide, fun _ l _ => syncEdit_keepsTarget envAllSucceed l,
   fun _ _ _ _ _ => ⟨rfl, rfl⟩, fun _ _ _ _ => ⟨rfl, rfl⟩, fun _ _ => ⟨rfl, rfl⟩, by decide,
   (hwc_set_posts_primary_target (syncCollaborators envAllSucceed) externalActiveCtx
    [overlayLayer 5, mkLayer (some 2) 1, fbTarget (some 7)] [none] (by decide)
    (fun _ l _ => syncEdit_keepsTarget envAllSucceed l)
    (fun _ _ _ _ _ => ⟨rfl, rfl⟩) (fun _ _ _ _ => ⟨rfl, rfl⟩)
    (fun _ _ => ⟨rfl, rfl⟩) (by decide)).1⟩

/-! ## `hwc_sync` (claim C7) -/

/-- C7 at the failing inputs. When the framebuffer device cannot be opened, `hwc_sync`
returns -1 having made no `close` call: the collected acquire fence 5 stays open and
stays in the layer. When every call succeeds, an acquire fence with descriptor 0 is
collected and handed to the ioctl but not closed and not reset, as the closing loop
tests `acquireFenceFd > 0` where the collecting loop tests `acquireFenceFd != -1`.
For contrast, when only the ioctl fails, fence 5 is closed once and reset to -1. -/
theorem hwc_sync_acquire_fence_left_open :
    (hwc_sync envOpenFails [overlayLayer 5]
      = some { ret := -1, list := [overlayLayer 5], calls := [SysCall.openFb] }) ∧
    (hwc_sync envAllSucceed [overlayLayer 0]
      = some { ret := 0, list := [{ overlayLayer 0 with releaseFenceFd := 41 }],
               calls := [SysCall.openFb, SysCall.bufferSync 30 [0], SysCall.close 30,
                         SysCall.dup 40, SysCall.close 40] }) ∧
    (hwc_sync envIoctlFails [overlayLayer 5]
      = some { ret := -1, list := [overlayLayer (-1)],
               calls := [SysCall.openFb, SysCall.bufferSync 30 [5], SysCall.close 30,
                         SysCall.close 5] }) := by
  decide

/-! ## `hwc_getDisplayAttributes` (claim C8) -/

theorem attributeValue_of_isRecognised (a : DisplayAttributes) (id : Nat)
    (h : isRecognised id = true) : ∃ v, attributeValue a id = some v := by
  unfold isRecognised at h
  simp only [Bool.or_eq_true, beq_iff_eq] at h
  unfold attributeValue
  split_ifs
  · exact ⟨_, rfl⟩
  · exact ⟨_, rfl⟩
  · exact ⟨_, rfl⟩
  · exact ⟨_, rfl⟩
  · exact ⟨_, rfl⟩
  · exfalso
    rcases h with (((h | h) | h) | h) | h <;> contradiction

theorem attributeValue_terminator (a : DisplayAttributes) :
    attributeValue a HWC_DISPLAY_NO_ATTRIBUTE = none := by
  simp [attributeValue, HWC_DISPLAY_NO_ATTRIBUTE, HWC_DISPLAY_VSYNC_PERIOD, HWC_DISPLAY_WIDTH,
    HWC_DISPLAY_HEIGHT, HWC_DISPLAY_DPI_X, HWC_DISPLAY_DPI_Y]

/-- The loop run over `n` entries that are all known: it returns 0, has stored the
value of each entry at its index and has left the other indices alone. -/
theorem attributesLoop_known (a : DisplayAttributes) (attrs : List Nat) :
    ∀ (n i : Nat) (values : Nat → Int),
      (∀ j, i ≤ j → j < i + n → ∃ id v, attrs[j]? = some id ∧ attributeValue a id = some v) →
      ∃ out, attributesLoop a attrs n i values = some (0, out) ∧
        (∀ j id, i ≤ j → j < i + n → attrs[j]? = some id →
          attributeValue a id = some (out j)) ∧
        (∀ j, (j < i ∨ i + n ≤ j) → out j = values j) := by
  intro n
  induction n with
  | zero =>
    intro i values _
    exact ⟨values, rfl, fun j id h1 h2 => by omega, fun _ _ => rfl⟩
  | succ n ih =>
    intro i values h
    obtain ⟨id, v, hid, hv⟩ := h i (Nat.le_refl i) (by omega)
    obtain ⟨out, hout, hget, hkeep⟩ := ih (i + 1) (writeValue values i v)
      (fun j h1 h2 => h j (by omega) (by omega))
    refine ⟨out, ?_, ?_, ?_⟩
    · simp only [attributesLoop, hid, hv, hout]
    · intro j id2 h1 h2 hj
      by_cases hji : j = i
      · subst hji
        rw [hid] at hj
        cases hj
        rw [hv, hkeep j (Or.inl (by omega))]
        simp [writeValue]
      · exact hget j id2 (by omega) (by omega) hj
    · intro j hj
      rw [hkeep j (by omega)]
      have : j ≠ i := by omega
      simp [writeValue, this]

/-- The loop run into an unknown entry at index `k` before its count is used up: it
returns `-EINVAL`, has stored the values of the entries before `k` and has left the
other indices alone. -/
theorem attributesLoop_unknown (a : DisplayAttributes) (attrs : List Nat) (k : Nat)
    (hk : ∃ id, attrs[k]? = some id ∧ attributeValue a id = none) :
    ∀ (n i : Nat) (values : Nat → Int), i ≤ k → k < i + n →
      (∀ j, i ≤ j → j < k → ∃ id v, attrs[j]? = some id ∧ attributeValue a id = some v) →
      ∃ out, attributesLoop a attrs n i values = some (-EINVAL, out) ∧
        (∀ j id, i ≤ j → j < k → attrs[j]? = some id →
          attributeValue a id = some (out j)) ∧
        (∀ j, (j < i ∨ k ≤ j) → out j = values j) := by
  intro n
  induction n with
  | zero => intro i values h1 h2; omega
  | succ n ih =>
    intro i values hik hkn h
    by_cases hi : i = k
    · subst hi
      obtain ⟨id, hid, hv⟩ := hk
      refine ⟨values, ?_, ?_, fun _ _ => rfl⟩
      · simp only [attributesLoop, hid, hv]
      · intro j id2 h1 h2; omega
    · obtain ⟨id, v, hid, hv⟩ := h i (Nat.le_refl i) (by omega)
      obtain ⟨out, hout, hget, hkeep⟩ := ih (i + 1) (writeValue values i v) (by omega)
        (by omega) (fun j h1 h2 => h j (by omega) h2)
      refine ⟨out, ?_, ?_, ?_⟩
      · simp only [attributesLoop, hid, hv, hout]
      · intro j id2 h1 h2 hj
        by_cases hji : j = i
        · subst hji
          rw [hid] at hj
          cases hj
          rw [hv, hkeep j (Or.inl (by omega))]
          simp [writeValue]
        · exact hget j id2 (by omega) h2 hj
      · intro j hj
        rw [hkeep j (by omega)]
        have : j ≠ i := by omega
        simp [writeValue, this]

/-- C8 as stated fails: for the request [WIDTH, HEIGHT] followed by the terminator on
the primary display, `hwc_getDisplayAttributes` stores xres and yres in `values[0]` and
`values[1]` but returns `-EINVAL`, not 0, because its loop always runs five times and
takes the terminator for an unknown attribute; and for a request of six known
attributes it returns 0 but leaves `values[5]` as it was. -/
theorem hwc_getDisplayAttributes_short_request_fails :
    ((hwc_getDisplayAttributes sampleCtx HWC_DISPLAY_PRIMARY 0
        [HWC_DISPLAY_WIDTH, HWC_DISPLAY_HEIGHT, HWC_DISPLAY_NO_ATTRIBUTE] (fun _ => -7)).map
      (fun r => (r.ret, r.values 0, r.values 1)) = some (-EINVAL, 1080, 1920)) ∧
    ((hwc_getDisplayAttributes sampleCtx HWC_DISPLAY_PRIMARY 0
        [HWC_DISPLAY_WIDTH, HWC_DISPLAY_HEIGHT, HWC_DISPLAY_VSYNC_PERIOD, HWC_DISPLAY_DPI_X,
         HWC_DISPLAY_DPI_Y, HWC_DISPLAY_WIDTH, HWC_DISPLAY_NO_ATTRIBUTE] (fun _ => -7)).map
      (fun r => (r.ret, r.values 0, r.values 5)) = some (0, 1080, -7)) := by
  decide

/-- The outcome of `hwc_getDisplayAttributes` on a request of known attribute ids
followed by the terminator, in terms of the `switch`: the loop stops after five entries
or at the terminator, whichever comes first. -/
theorem getDisplayAttributes_terminated (ctx : hwc_context_t) (disp config : Nat)
    (ids : List Nat) (values : Nat → Int) (hrec : ∀ id ∈ ids, isRecognised id = true) :
    ∃ r, hwc_getDisplayAttributes ctx disp config (ids ++ [HWC_DISPLAY_NO_ATTRIBUTE]) values
        = some r ∧
      r.ctx = ctx ∧
      r.ret = (if 5 ≤ ids.length then 0 else -EINVAL) ∧
      (∀ i id, i < 5 → ids[i]? = some id →
        attributeValue (ctx.dpyAttr disp) id = some (r.values i)) ∧
      (∀ i, (5 ≤ i ∨ ids.length ≤ i) → r.values i = values i) := by
  have hnum : NUM_DISPLAY_ATTRIBUTES - 1 = 5 := by decide
  have hknown : ∀ j, j < ids.length → ∃ id v,
      (ids ++ [HWC_DISPLAY_NO_ATTRIBUTE])[j]? = some id
        ∧ attributeValue (ctx.dpyAttr disp) id = some v := by
    intro j hj
    obtain ⟨v, hv⟩ := attributeValue_of_isRecognised (ctx.dpyAttr disp) ids[j]
      (hrec _ (List.getElem_mem hj))
    refine ⟨ids[j], v, ?_, hv⟩
    rw [List.getElem?_append_left hj, List.getElem?_eq_getElem hj]
  have hsame : ∀ j id, j < ids.length → ids[j]? = some id →
      (ids ++ [HWC_DISPLAY_NO_ATTRIBUTE])[j]? = some id := by
    intro j id hj h
    rw [List.getElem?_append_left hj, h]
  unfold hwc_getDisplayAttributes
  rw [hnum]
  by_cases hlen : 5 ≤ ids.length
  · obtain ⟨out, hout, hget, hkeep⟩ := attributesLoop_known (ctx.dpyAttr disp)
      (ids ++ [HWC_DISPLAY_NO_ATTRIBUTE]) 5 0 values
      (fun j _ h2 => hknown j (by omega))
    rw [hout]
    refine ⟨_, rfl, rfl, by simp [hlen], ?_, ?_⟩
    · intro i id hi hid
      exact hget i id (by omega) (by omega) (hsame i id (by omega) hid)
    · intro i hi
      exact hkeep i (by omega)
  · have hterm : ∃ id, (ids ++ [HWC_DISPLAY_NO_ATTRIBUTE])[ids.length]? = some id
        ∧ attributeValue (ctx.dpyAttr disp) id = none :=
      ⟨HWC_DISPLAY_NO_ATTRIBUTE, by simp, attributeValue_terminator _⟩
    obtain ⟨out, hout, hget, hkeep⟩ := attributesLoop_unknown (ctx.dpyAttr disp)
      (ids ++ [HWC_DISPLAY_NO_ATTRIBUTE]) ids.length hterm 5 0 values (by omega) (by omega)
      (fun j _ h2 => hknown j h2)
    rw [hout]
    refine ⟨_, rfl, rfl, by simp [hlen], ?_, ?_⟩
    · intro i id hi hid
      have hil : i < ids.length := by
        by_contra hcon
        rw [List.getElem?_eq_none (by omega)] at hid
        cases hid
      exact hget i id (by omega) hil (hsame i id hil hid)
    · intro i hi
      exact hkeep i (by omega)

/-- The value the `switch` stores for each of the five known ids, field by field. -/
theorem attributeValue_fields (a : DisplayAttributes) :
    attributeValue a HWC_DISPLAY_VSYNC_PERIOD = some (int32 a.vsync_period) ∧
    attributeValue a HWC_DISPLAY_WIDTH = some (int32 a.xres) ∧
    attributeValue a HWC_DISPLAY_HEIGHT = some (int32 a.yres) ∧
    attributeValue a HWC_DISPLAY_DPI_X
      = some (int32 ((a.xdpi * 1000).num.tdiv ((a.xdpi * 1000).den : Int))) ∧
    attributeValue a HWC_DISPLAY_DPI_Y
      = some (int32 ((a.ydpi * 1000).num.tdiv ((a.ydpi * 1000).den : Int))) := by
  refine ⟨?_, ?_, ?_, ?_, ?_⟩ <;>
    simp [attributeValue, dpiValue, HWC_DISPLAY_VSYNC_PERIOD, HWC_DISPLAY_WIDTH,
      HWC_DISPLAY_HEIGHT, HWC_DISPLAY_DPI_X, HWC_DISPLAY_DPI_Y]

/-- C8, amended: for every context, display and request made of known attribute ids
followed by the terminator, `hwc_getDisplayAttributes` handles the first five entries:
at each of the first five requested positions it stores the value the display has for
the attribute requested there (`vsync_period`, `xres`, `yres` as an `int`; `xdpi`,
`ydpi` times 1000 with the fraction dropped, as an `int`), it leaves every other
position of `values` and the context unchanged, and it returns 0 when at least five
attributes are requested. In particular the request [WIDTH, HEIGHT] on the primary
display of any context leaves `values[0] = xres` and `values[1] = yres` and the context
unchanged. (What it returns for fewer than five attributes is not stated here.) -/
theorem hwc_getDisplayAttributes_fixed_count (ctx : hwc_context_t) (disp config : Nat)
    (ids : List Nat) (values : Nat → Int) (hrec : ∀ id ∈ ids, isRecognised id = true) :
    (∃ r, hwc_getDisplayAttributes ctx disp config (ids ++ [HWC_DISPLAY_NO_ATTRIBUTE]) values
        = some r ∧
      r.ctx = ctx ∧
      (5 ≤ ids.length → r.ret = 0) ∧
      (∀ i, i < 5 → ids[i]? = some HWC_DISPLAY_VSYNC_PERIOD →
        r.values i = int32 (ctx.dpyAttr disp).vsync_period) ∧
      (∀ i, i < 5 → ids[i]? = some HWC_DISPLAY_WIDTH →
        r.values i = int32 (ctx.dpyAttr disp).xres) ∧
      (∀ i, i < 5 → ids[i]? = some HWC_DISPLAY_HEIGHT →
        r.values i = int32 (ctx.dpyAttr disp).yres) ∧
      (∀ i, i < 5 → ids[i]? = some HWC_DISPLAY_DPI_X →
        r.values i = int32 (((ctx.dpyAttr disp).xdpi * 1000).num.tdiv
          ((((ctx.dpyAttr disp).xdpi * 1000).den : Nat) : Int))) ∧
      (∀ i, i < 5 → ids[i]? = some HWC_DISPLAY_DPI_Y →
        r.values i = int32 (((ctx.dpyAttr disp).ydpi * 1000).num.tdiv
          ((((ctx.dpyAttr disp).ydpi * 1000).den : Nat) : Int))) ∧
      (∀ i, (5 ≤ i ∨ ids.length ≤ i) → r.values i = values i)) ∧
    (∃ r, hwc_getDisplayAttributes ctx HWC_DISPLAY_PRIMARY config
          [HWC_DISPLAY_WIDTH, HWC_DISPLAY_HEIGHT, HWC_DISPLAY_NO_ATTRIBUTE] values = some r ∧
      r.ctx = ctx ∧
      r.values 0 = int32 (ctx.dpyAttr HWC_DISPLAY_PRIMARY).xres ∧
      r.values 1 = int32 (ctx.dpyAttr HWC_DISPLAY_PRIMARY).yres ∧
      (∀ i, 2 ≤ i → r.values i = values i)) := by
  refine ⟨?_, ?_⟩
  · obtain ⟨r, hr, hctx, hret, hval, hkeep⟩ :=
      getDisplayAttributes_terminated ctx disp config ids values hrec
    obtain ⟨fv, fw, fh, fx, fy⟩ := attributeValue_fields (ctx.dpyAttr disp)
    refine ⟨r, hr, hctx, ?_, ?_, ?_, ?_, ?_, ?_, hkeep⟩
    · intro h5
      rw [hret]
      simp [h5]
    · intro i hi hid
      have h := hval i _ hi hid
      rw [fv] at h
      exact (Option.some.inj h).symm
    · intro i hi hid
      have h := hval i _ hi hid
      rw [fw] at h
      exact (Option.some.inj h).symm
    · intro i hi hid
      have h := hval i _ hi hid
      rw [fh] at h
      exact (Option.some.inj h).symm
    · intro i hi hid
      have h := hval i _ hi hid
      rw [fx] at h
      exact (Option.some.inj h).symm
    · intro i hi hid
      have h := hval i _ hi hid
      rw [fy] at h
      exact (Option.some.inj h).symm
  · obtain ⟨r, hr, hctx, _, hval, hkeep⟩ :=
      getDisplayAttributes_terminated ctx HWC_DISPLAY_PRIMARY config
        [HWC_DISPLAY_WIDTH, HWC_DISPLAY_HEIGHT] values (by decide)
    obtain ⟨_, fw, fh, _, _⟩ := attributeValue_fields (ctx.dpyAttr HWC_DISPLAY_PRIMARY)
    refine ⟨r, hr, hctx, ?_, ?_, ?_⟩
    · have h := hval 0 HWC_DISPLAY_WIDTH (by omega) rfl
      rw [fw] at h
      exact (Option.some.inj h).symm
    · have h := hval 1 HWC_DISPLAY_HEIGHT (by omega) rfl
      rw [fh] at h
      exact (Option.some.inj h).symm
    · intro i hi
      exact hkeep i (Or.inr (by simpa using hi))

/-- C8 amended, evaluated: the request of all five attributes on the primary display of
the sample context returns 0 and stores 1080, 1920 and 16666666 for width, height and
vsync period. -/
theorem hwc_getDisplayAttributes_fixed_count_witness :
    (∀ id ∈ [HWC_DISPLAY_WIDTH, HWC_DISPLAY_HEIGHT, HWC_DISPLAY_VSYNC_PERIOD,
        HWC_DISPLAY_DPI_X, HWC_DISPLAY_DPI_Y], isRecognised id = true) ∧
    ∃ r, hwc_getDisplayAttributes sampleCtx HWC_DISPLAY_PRIMARY 0
          ([HWC_DISPLAY_WIDTH, HWC_DISPLAY_HEIGHT, HWC_DISPLAY_VSYNC_PERIOD,
            HWC_DISPLAY_DPI_X, HWC_DISPLAY_DPI_Y] ++ [HWC_DISPLAY_NO_ATTRIBUTE])
          (fun _ => -7) = some r ∧
      r.ctx = sampleCtx ∧ r.ret = 0 ∧
      r.values 0 = 1080 ∧ r.values 1 = 1920 ∧ r.values 2 = 16666666 ∧ r.values 5 = -7 := by
  refine ⟨by decide, ?_⟩
  obtain ⟨r, hr, hctx, hret, hv, hw, hh, _, _, hkeep⟩ :=
    (hwc_getDisplayAttributes_fixed_count sampleCtx HWC_DISPLAY_PRIMARY 0
      [HWC_DISPLAY_WIDTH, HWC_DISPLAY_HEIGHT, HWC_DISPLAY_VSYNC_PERIOD, HWC_DISPLAY_DPI_X,
       HWC_DISPLAY_DPI_Y] (fun _ => -7) (by decide)).1
  exact ⟨r, hr, hctx, hret (by decide), (hw 0 (by omega) rfl).trans (by decide),
    (hh 1 (by omega) rfl).trans (by decide), (hv 2 (by omega) rfl).trans (by decide),
    hkeep 5 (Or.inl (by omega))⟩

/-! ## `hwc_blank` (claim C11) -/

/-- Blanking the primary display with a succeeding ioctl: the overlay is closed, the
panel powered down, `isActive` of the primary display cleared, 0 returned. -/
theorem hwc_blank_primary_on (c : Collaborators) (io : Nat → Nat → Int × Nat)
    (ctx : hwc_context_t) (blank : Int) (hb : blank ≠ 0)
    (h : 0 ≤ (io (c.mOverlay_setState_closed ctx).devices FB_BLANK_POWERDOWN).1) :
    hwc_blank c io ctx (HWC_DISPLAY_PRIMARY : Nat) blank
      = { ret := 0,
          ctx := setIsActive
            { c.mOverlay_setState_closed ctx with
              devices := (io (c.mOverlay_setState_closed ctx).devices FB_BLANK_POWERDOWN).2 }
            HWC_DISPLAY_PRIMARY false,
          calls := [BlankCall.overlayClosed, BlankCall.fbioblank FB_BLANK_POWERDOWN] } := by
  have hn : ¬ (io (c.mOverlay_setState_closed ctx).devices FB_BLANK_POWERDOWN).1 < 0 :=
    not_lt.mpr h
  simp [hwc_blank, blankFinish, hb, hn, HWC_DISPLAY_PRIMARY]

/-- Unblanking the primary display with a succeeding ioctl: the only call is the
unblank ioctl, `isActive` of the primary display is set, 0 returned. -/
theorem hwc_blank_primary_off (c : Collaborators) (io : Nat → Nat → Int × Nat)
    (ctx : hwc_context_t) (h : 0 ≤ (io ctx.devices FB_BLANK_UNBLANK).1) :
    hwc_blank c io ctx (HWC_DISPLAY_PRIMARY : Nat) 0
      = { ret := 0,
          ctx := setIsActive { ctx with devices := (io ctx.devices FB_BLANK_UNBLANK).2 }
            HWC_DISPLAY_PRIMARY true,
          calls := [BlankCall.fbioblank FB_BLANK_UNBLANK] } := by
  have hn : ¬ (io ctx.devices FB_BLANK_UNBLANK).1 < 0 := not_lt.mpr h
  simp [hwc_blank, blankFinish, hn, HWC_DISPLAY_PRIMARY]

theorem setIsActive_isActive (ctx : hwc_context_t) (dpy : Nat) (v : Bool) :
    ((setIsActive ctx dpy v).dpyAttr dpy).isActive = v := by
  simp [setIsActive]

/-- C11: for every context and every behaviour of the overlay, when the two `FBIOBLANK`
ioctls succeed (return 0 or more), `hwc_blank(PRIMARY, blank)` with `blank` true
(non-zero) followed by `hwc_blank(PRIMARY, 0)` returns 0 both times; `isActive` of the
primary display is false between the calls and true at the end; the first call closes
the overlay and powers the panel down, the second call makes the unblank ioctl and no
call on the overlay. The context after the first call is the one `setState(OV_CLOSED)`
leaves, with the device state the power-down ioctl leaves and `isActive` cleared; the
context after the second call is that context with the device state the unblank ioctl
leaves and `isActive` set, the overlay function not being applied again. -/
theorem hwc_blank_then_unblank (c : Collaborators) (io : Nat → Nat → Int × Nat)
    (ctx : hwc_context_t) (blank : Int) (hb : blank ≠ 0)
    (h1 : 0 ≤ (io (c.mOverlay_setState_closed ctx).devices FB_BLANK_POWERDOWN).1)
    (h2 : 0 ≤ (io (hwc_blank c io ctx (HWC_DISPLAY_PRIMARY : Nat) blank).ctx.devices
      FB_BLANK_UNBLANK).1) :
    (hwc_blank c io ctx (HWC_DISPLAY_PRIMARY : Nat) blank).ret = 0 ∧
    ((hwc_blank c io ctx (HWC_DISPLAY_PRIMARY : Nat) blank).ctx.dpyAttr
      HWC_DISPLAY_PRIMARY).isActive = false ∧
    (hwc_blank c io ctx (HWC_DISPLAY_PRIMARY : Nat) blank).calls
      = [BlankCall.overlayClosed, BlankCall.fbioblank FB_BLANK_POWERDOWN] ∧
    (hwc_blank c io (hwc_blank c io ctx (HWC_DISPLAY_PRIMARY : Nat) blank).ctx
      (HWC_DISPLAY_PRIMARY : Nat) 0).ret = 0 ∧
    ((hwc_blank c io (hwc_blank c io ctx (HWC_DISPLAY_PRIMARY : Nat) blank).ctx
      (HWC_DISPLAY_PRIMARY : Nat) 0).ctx.dpyAttr HWC_DISPLAY_PRIMARY).isActive = true ∧
    (hwc_blank c io (hwc_blank c io ctx (HWC_DISPLAY_PRIMARY : Nat) blank).ctx
      (HWC_DISPLAY_PRIMARY : Nat) 0).calls = [BlankCall.fbioblank FB_BLANK_UNBLANK] ∧
    BlankCall.overlayClosed ∉
      (hwc_blank c io (hwc_blank c io ctx (HWC_DISPLAY_PRIMARY : Nat) blank).ctx
        (HWC_DISPLAY_PRIMARY : Nat) 0).calls ∧
    (hwc_blank c io ctx (HWC_DISPLAY_PRIMARY : Nat) blank).ctx
      = setIsActive
          { c.mOverlay_setState_closed ctx with
            devices := (io (c.mOverlay_setState_closed ctx).devices FB_BLANK_POWERDOWN).2 }
          HWC_DISPLAY_PRIMARY false ∧
    (hwc_blank c io (hwc_blank c io ctx (HWC_DISPLAY_PRIMARY : Nat) blank).ctx
        (HWC_DISPLAY_PRIMARY : Nat) 0).ctx
      = setIsActive
          { setIsActive
              { c.mOverlay_setState_closed ctx with
                devices :=
                  (io (c.mOverlay_setState_closed ctx).devices FB_BLANK_POWERDOWN).2 }
              HWC_DISPLAY_PRIMARY false with
            devices := (io (io (c.mOverlay_setState_closed ctx).devices
              FB_BLANK_POWERDOWN).2 FB_BLANK_UNBLANK).2 }
          HWC_DISPLAY_PRIMARY true := by
  have e2 := hwc_blank_primary_off c io
    (hwc_blank c io ctx (HWC_DISPLAY_PRIMARY : Nat) blank).ctx h2
  have e1 := hwc_blank_primary_on c io ctx blank hb h1
  refine ⟨?_, ?_, ?_, ?_, ?_, ?_, ?_, ?_, ?_⟩
  · rw [e1]
  · rw [e1]
    exact setIsActive_isActive _ _ _
  · rw [e1]
  · rw [e2]
  · rw [e2]
    exact setIsActive_isActive _ _ _
  · rw [e2]
  · rw [e2]
    simp
  · rw [e1]
  · rw [e2, e1]
    rfl

/-- C11, evaluated: with an overlay that records its closing in the device state (+100)
and a framebuffer whose ioctl succeeds and counts its calls (+1), blanking and then
unblanking the primary display returns 0 twice, leaves the display active, and the
device state goes 0, 101, 102: the overlay is closed by the first call only. -/
theorem hwc_blank_then_unblank_witness :
    (1 : Int) ≠ 0 ∧
    0 ≤ (fbioblankSucceeds (closingCollaborators.mOverlay_setState_closed sampleCtx).devices
      FB_BLANK_POWERDOWN).1 ∧
    0 ≤ (fbioblankSucceeds
      (hwc_blank closingCollaborators fbioblankSucceeds sampleCtx
        (HWC_DISPLAY_PRIMARY : Nat) 1).ctx.devices FB_BLANK_UNBLANK).1 ∧
    (hwc_blank closingCollaborators fbioblankSucceeds sampleCtx
      (HWC_DISPLAY_PRIMARY : Nat) 1).ret = 0 ∧
    ((hwc_blank closingCollaborators fbioblankSucceeds
      (hwc_blank closingCollaborators fbioblankSucceeds sampleCtx
        (HWC_DISPLAY_PRIMARY : Nat) 1).ctx
      (HWC_DISPLAY_PRIMARY : Nat) 0).ctx.dpyAttr HWC_DISPLAY_PRIMARY).isActive = true ∧
    sampleCtx.devices = 0 ∧
    (hwc_blank closingCollaborators fbioblankSucceeds sampleCtx
      (HWC_DISPLAY_PRIMARY : Nat) 1).ctx.devices = 101 ∧
    (hwc_blank closingCollaborators fbioblankSucceeds
      (hwc_blank closingCollaborators fbioblankSucceeds sampleCtx
        (HWC_DISPLAY_PRIMARY : Nat) 1).ctx
      (HWC_DISPLAY_PRIMARY : Nat) 0).ctx.devices = 102 :=
  ⟨by decide, by decide, by decide,
   (hwc_blank_then_unblank closingCollaborators fbioblankSucceeds sampleCtx 1 (by decide)
      (by decide) (by decide)).1,
   (hwc_blank_then_unblank closingCollaborators fbioblankSucceeds sampleCtx 1 (by decide)
      (by decide) (by decide)).2.2.2.2.1,
   by decide, by decide, by decide⟩

/-! ## The capacity of `acquireFd` (claim C12) -/

/-- The number of fences the first loop of `hwc_sync` collects is the number of
overlay layers with an acquire fence: the loop has no other bound. -/
theorem length_collectAcquireFds (list : List hwc_layer_1_t) :
    (collectAcquireFds list).length
      = list.countP
          (fun l => decide (l.compositionType = HWC_OVERLAY ∧ l.acquireFenceFd ≠ -1)) := by
  induction list with
  | nil => rfl
  | cons l ls ih =>
    by_cases h : l.compositionType = HWC_OVERLAY ∧ l.acquireFenceFd ≠ -1
    · simp [collectAcquireFds, List.countP_cons, h, ih]
    · simp [collectAcquireFds, List.countP_cons, h, ih]

/-- The writes of the first loop go to the indices `count`, `count + 1`, ... and store
the collected fences. -/
theorem acquireWrites_eq (list : List hwc_layer_1_t) :
    ∀ (count : Nat), acquireWrites count list
      = (List.range' count (collectAcquireFds list).length).zip (collectAcquireFds list) := by
  induction list with
  | nil => intro count; rfl
  | cons l ls ih =>
    intro count
    by_cases h : l.compositionType = HWC_OVERLAY ∧ l.acquireFenceFd ≠ -1
    · simp [acquireWrites, collectAcquireFds, h, ih, List.range'_succ]
    · simp [acquireWrites, collectAcquireFds, h, ih]

/-- C12 at the failing input: the first loop of `hwc_sync` collects one fence per
overlay layer with an acquire fence, for every list, without a check against the
capacity of `acquireFd`; on a list of eleven such layers it collects 11 fences, more
than the capacity 10, its last write goes to `acquireFd[10]`, past the end of the
array, and the call leaves defined behaviour (`none`). -/
theorem hwc_sync_acquireFd_overrun :
    (∀ list : List hwc_layer_1_t, (collectAcquireFds list).length
      = list.countP
          (fun l => decide (l.compositionType = HWC_OVERLAY ∧ l.acquireFenceFd ≠ -1))) ∧
    (collectAcquireFds elevenOverlayLayers).length = 11 ∧
    ¬ ((collectAcquireFds elevenOverlayLayers).length ≤ acquireFdCapacity) ∧
    (10, 110) ∈ acquireWrites 0 elevenOverlayLayers ∧
    ¬ (10 < acquireFdCapacity) ∧
    hwc_sync envAllSucceed elevenOverlayLayers = none :=
  ⟨length_collectAcquireFds, by decide, by decide, by decide, by decide, by decide⟩

end qhwc
